import Mathlib

/-!
Verification of the TravelAgent backend (src/backend) against its
natural-language specification.

Modelling conventions, used throughout:

* Python floats that hold money amounts are modelled as exact rationals `ℚ`.
  The claims under scrutiny are arithmetic identities, inequalities with slack
  much larger than double-precision error, and exact equalities between file
  constants, so the idealisation is harmless.
* `round(x, 2)` / `round(x)` are modelled with Mathlib's `round` (half away
  from the floor); Python rounds half to even.  The two conventions differ only
  at exact half-ulp ties, and every statement proved here relies only on the
  bound `|round x - x| ≤ 1/2`, which holds for either convention.
* Calendar dates are modelled as day ordinals `ℤ`; `end - start` is the day
  count exactly as `(end_date - start_date).days` is in the source.
* Calls into external collaborators (the generative-AI service, the Amadeus
  flight API, the IRCTC rail API) are modelled as oracle parameters that the
  theorems quantify over, so each theorem holds for every behaviour of the
  collaborator.  Pure string transformations performed by Python `re`
  substitutions are likewise abstract `String → String` parameters.
* Python code that can raise is modelled with `Option`/`Except`; a `none`
  result at a call site corresponds to an exception reaching that site's
  handler.
-/

namespace TravelAgent

/-! ## Rounding helpers -/

/-- `round(x, 2)` from Python: round to two decimal places. -/
def round2 (x : ℚ) : ℚ := (round (100 * x) : ℤ) / 100

/-- Rounding to the nearest multiple of a positive constant, as in
`round(price / 10) * 10` and `round(price / 5) * 5` in the hotel fallback. -/
def roundMult (m x : ℚ) : ℚ := (round (x / m) : ℤ) * m

theorem round2_close (x : ℚ) : |round2 x - x| ≤ 1 / 200 := by
  have h := abs_sub_round (100 * x)
  rw [round2]
  rw [show ((round (100 * x) : ℤ) : ℚ) / 100 - x = ((round (100 * x) : ℤ) - 100 * x) / 100 by
    ring]
  rw [abs_div]
  rw [show |(100 : ℚ)| = 100 by norm_num]
  rw [abs_sub_comm]
  linarith [h]

theorem round2_idem (x : ℚ) : round2 (round2 x) = round2 x := by
  unfold round2
  rw [show (100 : ℚ) * ((round (100 * x) : ℤ) / 100) = ((round (100 * x) : ℤ) : ℚ) by ring]
  rw [round_intCast]

theorem round2_intCast (n : ℤ) : round2 (n : ℚ) = n := by
  unfold round2
  rw [show (100 : ℚ) * (n : ℚ) = ((100 * n : ℤ) : ℚ) by push_cast; ring]
  rw [round_intCast]
  push_cast
  field_simp

theorem round2_eval {x : ℚ} {n : ℤ} (h : x = (n : ℚ)) : round2 x = (n : ℚ) := by
  rw [h, round2_intCast]

theorem roundMult_close {m : ℚ} (hm : 0 < m) (x : ℚ) : |roundMult m x - x| ≤ m / 2 := by
  have h := abs_sub_round (x / m)
  rw [roundMult]
  rw [show ((round (x / m) : ℤ) : ℚ) * m - x = ((round (x / m) : ℤ) - x / m) * m by
    field_simp]
  rw [abs_mul, abs_of_pos hm]
  rw [abs_sub_comm]
  calc |x / m - (round (x / m) : ℚ)| * m ≤ (1 / 2) * m := by
        exact mul_le_mul_of_nonneg_right h (le_of_lt hm)
    _ = m / 2 := by ring

/-- Python's `str.lower()`, modelled as a character-wise map (the repo only
feeds it ASCII city and trip-type names).  `String.toLower` from core is
extensionally the same but is defined by well-founded recursion and does not
reduce inside the kernel, so a structural definition is used. -/
def toLowerStr (s : String) : String := ⟨s.data.map Char.toLower⟩

/-! ## Budget allocator (`src/backend/agents/budget_agent_v2.py`)

`EnhancedBudgetAgent.trip_type_allocations` is a dict mapping a trip type to a
dict of category percentages; `allocate_budget` looks the table up by the
lower-cased trip type, falling back to the `"family"` entry. -/

/-- One `(category, percentage)` table, in the dict's insertion order:
accommodation, transport, activities, food, miscellaneous. -/
structure AllocTable where
  accommodation : ℚ
  transport : ℚ
  activities : ℚ
  food : ℚ
  miscellaneous : ℚ
deriving DecidableEq

def luxuriousTable : AllocTable := ⟨40, 25, 20, 10, 5⟩

def adventurousTable : AllocTable := ⟨25, 20, 35, 12, 8⟩

def familyTable : AllocTable := ⟨30, 25, 25, 15, 5⟩

def budgetTable : AllocTable := ⟨30, 30, 20, 15, 5⟩

def culturalTable : AllocTable := ⟨28, 22, 30, 15, 5⟩

/-- The dict lookup `trip_type_allocations[trip_type.lower()]` with the
`"family"` fallback for unknown keys (budget_agent_v2.py lines 61-75). -/
def allocationFor (tripType : String) : AllocTable :=
  if toLowerStr tripType = "luxurious" then luxuriousTable
  else if toLowerStr tripType = "adventurous" then adventurousTable
  else if toLowerStr tripType = "family" then familyTable
  else if toLowerStr tripType = "budget" then budgetTable
  else if toLowerStr tripType = "cultural" then culturalTable
  else familyTable

/-- Sum of the five category percentages of a table. -/
def AllocTable.percentSum (a : AllocTable) : ℚ :=
  a.accommodation + a.transport + a.activities + a.food + a.miscellaneous

/-- The five rounded category amounts (`round((percentage / 100) * total, 2)`,
budget_agent_v2.py lines 81-90), in table order. -/
def categoryAmounts (a : AllocTable) (total : ℚ) : List ℚ :=
  [round2 (a.accommodation / 100 * total),
   round2 (a.transport / 100 * total),
   round2 (a.activities / 100 * total),
   round2 (a.food / 100 * total),
   round2 (a.miscellaneous / 100 * total)]

/-- The `pipeline_data` record assembled by `allocate_budget`
(budget_agent_v2.py lines 92-121). -/
structure PipelineData where
  total_budget : ℚ
  accommodation_budget : ℚ
  hotel_budget_per_night : ℚ
  transport_budget : ℚ
  activities_budget : ℚ
  activities_budget_per_day : ℚ
  food_budget : ℚ
  food_budget_per_day : ℚ
  miscellaneous_budget : ℚ
  trip_duration_days : ℤ
  trip_duration_nights : ℤ
deriving DecidableEq

/-- `EnhancedBudgetAgent.allocate_budget`, restricted to the numeric
`pipeline_data` it returns.  `days` is `(end_date - start_date).days`;
`nights = days` as in the source (line 69).  The per-unit divisions carry the
source's `if nights > 0 else` / `if days > 0 else` guards. -/
def allocateBudget (tripType : String) (totalBudget : ℚ) (days : ℤ) : PipelineData :=
  let nights := days
  let a := allocationFor tripType
  let accAmt := round2 (a.accommodation / 100 * totalBudget)
  let traAmt := round2 (a.transport / 100 * totalBudget)
  let actAmt := round2 (a.activities / 100 * totalBudget)
  let foodAmt := round2 (a.food / 100 * totalBudget)
  let miscAmt := round2 (a.miscellaneous / 100 * totalBudget)
  let hotelPerNight := if nights > 0 then accAmt / nights else accAmt
  let actPerDay := if days > 0 then actAmt / days else actAmt
  { total_budget := totalBudget
    accommodation_budget := accAmt
    hotel_budget_per_night := round2 hotelPerNight
    transport_budget := traAmt
    activities_budget := actAmt
    activities_budget_per_day := round2 actPerDay
    food_budget := foodAmt
    food_budget_per_day := if days > 0 then round2 (foodAmt / days) else foodAmt
    miscellaneous_budget := miscAmt
    trip_duration_days := days
    trip_duration_nights := nights }

/-- Any trip-type string selects one of the five concrete tables. -/
theorem allocationFor_cases (t : String) :
    allocationFor t = luxuriousTable ∨ allocationFor t = adventurousTable ∨
    allocationFor t = familyTable ∨ allocationFor t = budgetTable ∨
    allocationFor t = culturalTable := by
  unfold allocationFor
  split_ifs <;> simp

/-- Five rounded shares of a total, with percentages summing to 100, sum back
to the total within five half-ulps of a hundredth. -/
theorem sum_five_round2_shares (B p1 p2 p3 p4 p5 : ℚ) (hp : p1 + p2 + p3 + p4 + p5 = 100) :
    |round2 (p1 / 100 * B) + round2 (p2 / 100 * B) + round2 (p3 / 100 * B) +
      round2 (p4 / 100 * B) + round2 (p5 / 100 * B) - B| ≤ 1 / 40 := by
  have h1 := round2_close (p1 / 100 * B)
  have h2 := round2_close (p2 / 100 * B)
  have h3 := round2_close (p3 / 100 * B)
  have h4 := round2_close (p4 / 100 * B)
  have h5 := round2_close (p5 / 100 * B)
  rw [abs_le] at h1 h2 h3 h4 h5 ⊢
  have hsum : p1 / 100 * B + p2 / 100 * B + p3 / 100 * B + p4 / 100 * B + p5 / 100 * B = B := by
    have : (p1 + p2 + p3 + p4 + p5) / 100 * B = B := by rw [hp]; ring
    linarith [this]
  constructor <;> [nlinarith [h1.1, h2.1, h3.1, h4.1, h5.1, hsum];
    nlinarith [h1.2, h2.2, h3.2, h4.2, h5.2, hsum]]

/-- C3.  For every trip type (known or unknown, any casing) and positive total:
the selected table's percentages sum to exactly 100, the five rounded category
amounts sum to the total within rounding slack (five half-cents), and a trip
type whose lower-casing is none of the five known keys selects the family
table. -/
theorem allocation_percentages_and_amounts (t : String) (B : ℚ) (hB : 0 < B) :
    (allocationFor t).percentSum = 100 ∧
    |((categoryAmounts (allocationFor t) B).sum) - B| ≤ 1 / 40 ∧
    (toLowerStr t ∉ (["luxurious", "adventurous", "family", "budget", "cultural"] : List String) →
      allocationFor t = familyTable) := by
  refine ⟨?_, ?_, ?_⟩
  · rcases allocationFor_cases t with h | h | h | h | h <;>
      rw [h] <;>
      norm_num [AllocTable.percentSum, luxuriousTable, adventurousTable, familyTable,
        budgetTable, culturalTable]
  · have key : ∀ a : AllocTable, a.percentSum = 100 →
        |((categoryAmounts a B).sum) - B| ≤ 1 / 40 := by
      intro a ha
      have : (categoryAmounts a B).sum =
          round2 (a.accommodation / 100 * B) + round2 (a.transport / 100 * B) +
          round2 (a.activities / 100 * B) + round2 (a.food / 100 * B) +
          round2 (a.miscellaneous / 100 * B) := by
        simp [categoryAmounts]; ring
      rw [this]
      exact sum_five_round2_shares B _ _ _ _ _ ha
    apply key
    rcases allocationFor_cases t with h | h | h | h | h <;> rw [h] <;>
      norm_num [AllocTable.percentSum, luxuriousTable, adventurousTable, familyTable,
        budgetTable, culturalTable]
  · intro hmem
    unfold allocationFor
    simp only [List.mem_cons, List.not_mem_nil] at hmem
    push_neg at hmem
    obtain ⟨h1, h2, h3, h4, h5⟩ := hmem
    simp only [h1, h2, h3, h4, h5, if_false]

/-- Witness for C3 at a concrete unknown trip type and total. -/
theorem allocation_percentages_and_amounts_witness :
    (allocationFor "ROAD TRIP").percentSum = 100 ∧
    |((categoryAmounts (allocationFor "ROAD TRIP") 60000).sum) - 60000| ≤ 1 / 40 ∧
    ((toLowerStr "ROAD TRIP" ∉
        (["luxurious", "adventurous", "family", "budget", "cultural"] : List String)) →
      allocationFor "ROAD TRIP" = familyTable) :=
  allocation_percentages_and_amounts "ROAD TRIP" 60000 (by norm_num)

/-- C8.  With a non-positive night (= day) count, every per-unit budget in the
pipeline data falls back to the whole category amount: the division guards in
`allocate_budget` never divide by the unit count when it is `≤ 0`, so the
derivation is total on all inputs. -/
theorem per_unit_budgets_fallback (t : String) (B : ℚ) (days : ℤ) (hd : days ≤ 0) :
    (allocateBudget t B days).hotel_budget_per_night =
      (allocateBudget t B days).accommodation_budget ∧
    (allocateBudget t B days).activities_budget_per_day =
      (allocateBudget t B days).activities_budget ∧
    (allocateBudget t B days).food_budget_per_day =
      (allocateBudget t B days).food_budget := by
  have hng : ¬ (days > 0) := by omega
  refine ⟨?_, ?_, ?_⟩ <;>
    simp only [allocateBudget, hng, if_false, round2_idem]

/-- Witness for C8 at zero days. -/
theorem per_unit_budgets_fallback_witness :
    (allocateBudget "family" 50000 0).hotel_budget_per_night =
      (allocateBudget "family" 50000 0).accommodation_budget ∧
    (allocateBudget "family" 50000 0).activities_budget_per_day =
      (allocateBudget "family" 50000 0).activities_budget ∧
    (allocateBudget "family" 50000 0).food_budget_per_day =
      (allocateBudget "family" 50000 0).food_budget :=
  per_unit_budgets_fallback "family" 50000 0 (by decide)

/-! ## Entity schemas (`src/backend/models/schemas.py`)

Dates are day ordinals `ℤ`; money is `ℚ`. -/

structure TripRequest where
  trip_type : String
  origin : String
  destination : String
  start_date : ℤ
  end_date : ℤ
  budget : ℚ
  adults : ℤ
  children : ℤ
deriving DecidableEq

structure HotelSearchRequest where
  destination : String
  check_in : ℤ
  check_out : ℤ
  adults : ℤ
  children : ℤ
  max_price : ℚ
  trip_type : String
deriving DecidableEq

structure Hotel where
  id : String
  name : String
  price : ℚ
  rating : ℚ
  image : String
  location : String
  amenities : List String
  description : String
  tag : String
deriving DecidableEq

structure HotelSearchResponse where
  hotels : List Hotel
  total_count : ℤ
deriving DecidableEq

structure TransportOption where
  carrier : String
  time : String
  price : ℚ
  duration : String
  class_type : Option String
deriving DecidableEq

structure TransportMode where
  mode : String
  icon : String
  duration : String
  price_range : String
  note : String
  options : List TransportOption
deriving DecidableEq

structure TransportSearchRequest where
  origin : String
  destination : String
  travel_date : ℤ
  adults : ℤ
  children : ℤ
  budget_allocation : ℚ
deriving DecidableEq

structure TransportSearchResponse where
  transport_modes : List TransportMode
deriving DecidableEq

structure Activity where
  name : String
  icon : String
  time : String
  cost : ℚ
  description : String
deriving DecidableEq

structure DayPlan where
  day : ℤ
  date : String
  activities : List Activity
  total_cost : ℚ
deriving DecidableEq

structure ItineraryRequest where
  destination : String
  start_date : ℤ
  end_date : ℤ
  trip_type : String
  budget_allocation : ℚ
  interests : Option (List String)
deriving DecidableEq

structure ItineraryResponse where
  itinerary : List DayPlan
  total_activities_cost : ℚ
  recommendations : String
deriving DecidableEq

/-! ## Pipeline coordinator (`src/backend/agents/coordinator.py`)

`AgentCoordinator.pipeline_context` is a dict that is empty until
`process_budget` runs; `none` models the empty dict, `some pd` the primed
context (the `trip_request` echo stored alongside is never read by the search
methods and is omitted).  Each search method returns either the precondition
error raised on an empty context or the request it delegates to its agent,
with the budget field overridden as in the source. -/

def hotelPrecondMsg : String :=
  "Budget must be processed first. Call process_budget() before search_hotels()."

def transportPrecondMsg : String :=
  "Budget must be processed first. Call process_budget() before search_transport()."

def itineraryPrecondMsg : String :=
  "Budget must be processed first. Call process_budget() before generate_itinerary()."

/-- `AgentCoordinator.process_budget`: computes the allocation and primes the
context (coordinator.py lines 32-49). -/
def processBudget (req : TripRequest) : Option PipelineData :=
  some (allocateBudget req.trip_type req.budget (req.end_date - req.start_date))

/-- `AgentCoordinator.reset_pipeline` (coordinator.py lines 120-125). -/
def resetPipeline (_ctx : Option PipelineData) : Option PipelineData := none

/-- `AgentCoordinator.search_hotels` up to the delegation point
(coordinator.py lines 51-66): precondition check, then
`request.max_price = min(request.max_price, hotel_budget_per_night)`. -/
def coordSearchHotels (ctx : Option PipelineData) (req : HotelSearchRequest) :
    Except String HotelSearchRequest :=
  match ctx with
  | none => .error hotelPrecondMsg
  | some pd => .ok { req with max_price := min req.max_price pd.hotel_budget_per_night }

/-- `AgentCoordinator.search_transport` up to the delegation point
(coordinator.py lines 68-83): precondition check, then
`request.budget_allocation = transport_budget` — an unconditional overwrite,
with no `min` against the request's own value. -/
def coordSearchTransport (ctx : Option PipelineData) (req : TransportSearchRequest) :
    Except String TransportSearchRequest :=
  match ctx with
  | none => .error transportPrecondMsg
  | some pd => .ok { req with budget_allocation := pd.transport_budget }

/-- `AgentCoordinator.generate_itinerary` (coordinator.py lines 85-112):
precondition check, unconditional `request.budget_allocation =
activities_budget` overwrite, delegation to the activities agent, then the
over-budget comparison whose both outcomes return the agent's result
unchanged (the warning is only logged). -/
def coordGenerateItinerary (ctx : Option PipelineData)
    (agent : ItineraryRequest → ItineraryResponse) (req : ItineraryRequest) :
    Except String ItineraryResponse :=
  match ctx with
  | none => .error itineraryPrecondMsg
  | some pd =>
    let req2 := { req with budget_allocation := pd.activities_budget }
    let result := agent req2
    if result.total_activities_cost > pd.activities_budget then
      .ok result
    else
      .ok result

/-! ## HTTP planning endpoints (`src/backend/main.py`)

Each planning endpoint wraps the coordinator call in `try/except`; on any
exception it calls the corresponding agent directly with the *unmodified*
request and returns that as a normal success response
(main.py lines 96-141). -/

/-- Outcome of an HTTP handler: a success body or an error envelope. -/
inductive HTTPResult (α : Type) where
  | success (body : α)
  | errorResponse (status : ℤ) (detail : String)
deriving DecidableEq

/-- `POST /api/hotels/search` (main.py lines 96-109). -/
def searchHotelsEndpoint (ctx : Option PipelineData)
    (agent : HotelSearchRequest → HotelSearchResponse) (req : HotelSearchRequest) :
    HTTPResult HotelSearchResponse :=
  match coordSearchHotels ctx req with
  | .ok req2 => .success (agent req2)
  | .error _ => .success (agent req)

/-- `POST /api/transport/search` (main.py lines 112-125). -/
def searchTransportEndpoint (ctx : Option PipelineData)
    (agent : TransportSearchRequest → TransportSearchResponse) (req : TransportSearchRequest) :
    HTTPResult TransportSearchResponse :=
  match coordSearchTransport ctx req with
  | .ok req2 => .success (agent req2)
  | .error _ => .success (agent req)

/-- `POST /api/itinerary/generate` (main.py lines 128-141). -/
def generateItineraryEndpoint (ctx : Option PipelineData)
    (agent : ItineraryRequest → ItineraryResponse) (req : ItineraryRequest) :
    HTTPResult ItineraryResponse :=
  match coordGenerateItinerary ctx agent req with
  | .ok resp => .success resp
  | .error _ => .success (agent req)

/-- Concrete evaluation: the 60000-total, 3-night family pipeline's transport
ceiling is 15000 (25% of 60000). -/
theorem family60000_transport_budget :
    (allocateBudget "family" 60000 3).transport_budget = 15000 := by
  have hfam : allocationFor "family" = familyTable := by decide
  simp only [allocateBudget, hfam, familyTable]
  rw [round2_eval (show (25 : ℚ) / 100 * 60000 = ((15000 : ℤ) : ℚ) by norm_num)]
  norm_num

/-- Concrete evaluation: the 60000-total, 3-night family pipeline's per-night
hotel ceiling is 6000 (30% of 60000, divided by 3 nights). -/
theorem family60000_hotel_per_night :
    (allocateBudget "family" 60000 3).hotel_budget_per_night = 6000 := by
  have hfam : allocationFor "family" = familyTable := by decide
  simp only [allocateBudget, hfam, familyTable]
  rw [round2_eval (show (30 : ℚ) / 100 * 60000 = ((18000 : ℤ) : ℚ) by norm_num)]
  norm_num
  rw [round2_eval (show (6000 : ℚ) = ((6000 : ℤ) : ℚ) by norm_num)]
  norm_num

/-- Concrete evaluation: the 1000-total, 1-day family pipeline's activities
ceiling is 250 (25% of 1000). -/
theorem family1000_activities_budget :
    (allocateBudget "family" 1000 1).activities_budget = 250 := by
  have hfam : allocationFor "family" = familyTable := by decide
  simp only [allocateBudget, hfam, familyTable]
  rw [round2_eval (show (25 : ℚ) / 100 * 1000 = ((250 : ℤ) : ℚ) by norm_num)]
  norm_num

/-- C2 counterexample.  In the primed state from a 60000-budget, 3-night
family trip (transport ceiling 15000), a transport request asking for only
10000 is overwritten to the full 15000 ceiling — not to
`min(request.budget, ceiling) = 10000` as the claim states; so transport (and
likewise itinerary) delegation does not take the minimum with the request's
own budget value. -/
theorem coordinator_min_clamp_counterexample :
    (coordSearchTransport (some (allocateBudget "family" 60000 3))
        { origin := "delhi", destination := "goa", travel_date := 0, adults := 2,
          children := 0, budget_allocation := 10000 }).map (·.budget_allocation) =
      .ok 15000 ∧
    min (10000 : ℚ) (allocateBudget "family" 60000 3).transport_budget = 10000 ∧
    (15000 : ℚ) ≠ 10000 := by
  refine ⟨?_, ?_, by norm_num⟩
  · simp only [coordSearchTransport, Except.map, family60000_transport_budget]
  · rw [family60000_transport_budget]
    norm_num

/-- C2 (amended).  In the primed state, `search_hotels` clamps the request's
`max_price` to `min(request.max_price, per-night ceiling)`, while
`search_transport` and `generate_itinerary` overwrite the request's
`budget_allocation` with the pipeline ceiling unconditionally; in the
60000-total, 3-night family scenario the per-night hotel ceiling is 6000 and
a 9000 hotel request is clamped to 6000. -/
theorem coordinator_budget_threading (pd : PipelineData) (hreq : HotelSearchRequest)
    (treq : TransportSearchRequest) (ireq : ItineraryRequest)
    (agent : ItineraryRequest → ItineraryResponse) :
    coordSearchHotels (some pd) hreq =
      .ok { hreq with max_price := min hreq.max_price pd.hotel_budget_per_night } ∧
    coordSearchTransport (some pd) treq =
      .ok { treq with budget_allocation := pd.transport_budget } ∧
    coordGenerateItinerary (some pd) agent ireq =
      .ok (agent { ireq with budget_allocation := pd.activities_budget }) ∧
    (allocateBudget "family" 60000 3).hotel_budget_per_night = 6000 ∧
    (coordSearchHotels (some (allocateBudget "family" 60000 3))
        { hreq with max_price := 9000 }).map (·.max_price) = .ok 6000 := by
  refine ⟨rfl, rfl, ?_, family60000_hotel_per_night, ?_⟩
  · simp only [coordGenerateItinerary]
    split <;> rfl
  · simp only [coordSearchHotels, family60000_hotel_per_night, Except.map]
    norm_num

/-- C4 counterexample.  With the pipeline uninitialized, the hotel-search
endpoint does not surface the precondition failure as a client error: it
catches the coordinator's exception, invokes the hotel agent directly with
the unmodified request, and returns a plain success response. -/
theorem precondition_swallowed_counterexample :
    searchHotelsEndpoint none (fun _ => { hotels := [], total_count := 0 })
        { destination := "goa", check_in := 0, check_out := 3, adults := 2,
          children := 0, max_price := 5000, trip_type := "family" } =
      .success { hotels := [], total_count := 0 } := rfl

/-- C4 (amended).  Calling any coordinator search method before
`process_budget` (or after `reset_pipeline`) raises the precondition error;
the HTTP endpoints, however, catch that error and fall back to invoking the
agent directly with the unmodified request, returning a successful
(unconstrained) response rather than a client error. -/
theorem precondition_error_raised_but_swallowed (ctx : Option PipelineData)
    (hreq : HotelSearchRequest) (treq : TransportSearchRequest) (ireq : ItineraryRequest)
    (hAgent : HotelSearchRequest → HotelSearchResponse)
    (tAgent : TransportSearchRequest → TransportSearchResponse)
    (iAgent : ItineraryRequest → ItineraryResponse) :
    coordSearchHotels none hreq = .error hotelPrecondMsg ∧
    coordSearchTransport none treq = .error transportPrecondMsg ∧
    coordGenerateItinerary none iAgent ireq = .error itineraryPrecondMsg ∧
    coordSearchHotels (resetPipeline ctx) hreq = .error hotelPrecondMsg ∧
    searchHotelsEndpoint none hAgent hreq = .success (hAgent hreq) ∧
    searchTransportEndpoint none tAgent treq = .success (tAgent treq) ∧
    generateItineraryEndpoint none iAgent ireq = .success (iAgent ireq) :=
  ⟨rfl, rfl, rfl, rfl, rfl, rfl, rfl⟩

/-- C9.  When the generated itinerary's realized cost exceeds the allotted
activities ceiling, the coordinator still returns the agent's response
object exactly as produced (every field unchanged): the overage only logs
a warning and neither rejects nor regenerates. -/
theorem itinerary_overage_returned_unchanged (pd : PipelineData)
    (agent : ItineraryRequest → ItineraryResponse) (req : ItineraryRequest)
    (hover : (agent { req with budget_allocation := pd.activities_budget
                    }).total_activities_cost > pd.activities_budget) :
    coordGenerateItinerary (some pd) agent req =
      .ok (agent { req with budget_allocation := pd.activities_budget }) := by
  simp only [coordGenerateItinerary]
  split <;> rfl

/-- Witness for C9: a concrete primed context with activities ceiling 250 and
an agent whose itinerary costs 300. -/
theorem itinerary_overage_returned_unchanged_witness :
    coordGenerateItinerary (some (allocateBudget "family" 1000 1))
        (fun _ => { itinerary := [], total_activities_cost := 300, recommendations := "ok" })
        { destination := "goa", start_date := 0, end_date := 1, trip_type := "family",
          budget_allocation := 50, interests := none } =
      .ok { itinerary := [], total_activities_cost := 300, recommendations := "ok" } :=
  itinerary_overage_returned_unchanged (allocateBudget "family" 1000 1)
    (fun _ => { itinerary := [], total_activities_cost := 300, recommendations := "ok" })
    { destination := "goa", start_date := 0, end_date := 1, trip_type := "family",
      budget_allocation := 50, interests := none }
    (by rw [family1000_activities_budget]; norm_num)

/-! ## Activities agent (`src/backend/agents/activities_agent.py`)

`ActivitiesAgent.generate_itinerary` asks the generative model for a JSON
array of day objects, repairs malformed output in stages, and falls back to a
deterministic synthetic itinerary whenever anything goes wrong.

The external AI call is an oracle (`GenOutcome` per attempt).  `json.loads`
and the two `re`-based repairs are abstract parameters (`ParsePrims`), so the
theorems below hold for every behaviour of those primitives; the fence
stripping, bracket slicing, and bracket-balance repair are pure string code
and are modelled concretely. -/

/-- A Python value of the shapes `json.loads` can produce. -/
inductive PyVal where
  | pyStr (s : String)
  | pyInt (n : ℤ)
  | pyNum (q : ℚ)
  | pyBool (b : Bool)
  | pyNone
  | pyList (xs : List PyVal)
  | pyDict (kvs : List (String × PyVal))

/-- The string-level primitives of the repair chain that are not reimplemented
character by character: `json.loads` (`none` models `JSONDecodeError`), the
trailing-comma regex substitution, the truncated-`description` regex
substitution, the complete-day-object `re.findall`, and `float()` applied to
a string.  All results below are proved for every behaviour of these
functions. -/
structure ParsePrims where
  jsonParse : String → Option PyVal
  fixTrailingCommas : String → String
  fixDescriptions : String → String
  findDayObjects : String → List String
  floatOfStr : String → Option ℚ

/-- The parts of a `generate_content` response that the agent reads:
whether `response.candidates` is nonempty, the text of each part of the first
candidate's content, and the finish reason (used only for logging). -/
structure AIResp where
  hasCandidates : Bool
  parts : List String
  finishReasonName : String
  finishReasonVal : ℤ

/-- Outcome of one `generate_content` attempt: a response, an exception whose
message marks a rate limit (`"429"`/`"Resource exhausted"`), or any other
exception. -/
inductive GenOutcome where
  | ok (resp : AIResp)
  | rateLimited
  | raises

/-- Result of the three-attempt retry loop (activities_agent.py lines
104-124): either a response, or control reaching the fallback (a third rate
limit returns the fallback directly; any other exception propagates to the
outer handler at line 302, which also falls back). -/
inductive RetryResult where
  | got (resp : AIResp)
  | fellBack

/-- The retry loop with `max_retries = 3`: attempt `k` consults `oracle k`. -/
def runRetryLoop (oracle : ℕ → GenOutcome) : RetryResult :=
  match oracle 0 with
  | .ok r => .got r
  | .raises => .fellBack
  | .rateLimited =>
    match oracle 1 with
    | .ok r => .got r
    | .raises => .fellBack
    | .rateLimited =>
      match oracle 2 with
      | .ok r => .got r
      | .raises => .fellBack
      | .rateLimited => .fellBack

/-- Markdown fence stripping (activities_agent.py lines 158-161):
`content.split("```")[1]`, then dropping a leading `"json"` tag.  The index-1
element always exists when the string starts with the fence. -/
def stripFences (c : String) : String :=
  if c.startsWith "```" then
    let c1 := (c.splitOn "```").getD 1 ""
    if c1.startsWith "json" then c1.drop 4 else c1
  else c

/-- Bracket slicing (activities_agent.py lines 164-167): keep the substring
from the first `'['` to the last `']'` when both exist. -/
def sliceBrackets (c : String) : String :=
  let cs := c.data
  match cs.findIdx? (· = '['), cs.reverse.findIdx? (· = ']') with
  | some s, some rIdx =>
    let e := cs.length - 1 - rIdx
    ⟨(cs.drop s).take (e + 1 - s)⟩
  | _, _ => c

/-- The bracket-balance repair (activities_agent.py lines 208-239): count
unclosed `'{'`/`'['`, optionally perform the "smart closing" appends when the
right-stripped content ends in a comma or quote, then append the remaining
closers. -/
def closeBrackets (c : String) : String :=
  let cs := c.data
  let openBrk : ℤ := cs.count '[' - cs.count ']'
  let openBrc : ℤ := cs.count '\x7b' - cs.count '\x7d'
  if openBrc > 0 ∨ openBrk > 0 then
    let lastContent := c.trimRight
    let smart :=
      if lastContent.endsWith "," ∨ lastContent.endsWith "\"" then
        let (c1, brc1) :=
          if openBrc ≥ 2 then (c ++ "\n      \x7d", openBrc - 1) else (c, openBrc)
        let (c2, brc2) :=
          if brc1 ≥ 1 then (c1 ++ "\n    \x7d", brc1 - 1) else (c1, brc1)
        let (c3, brk1) :=
          if openBrk ≥ 1 then (c2 ++ "\n    ]", openBrk - 1) else (c2, openBrk)
        let (c4, brk2) :=
          if brk1 ≥ 1 then (c3 ++ "\n]", brk1 - 1) else (c3, brk1)
        (c4, brc2, brk2)
      else (c, openBrc, openBrk)
    smart.1 ++ String.join (List.replicate smart.2.1.toNat "\n  \x7d") ++
      String.join (List.replicate smart.2.2.toNat "\n]")
  else c

/-- The ordered repair-and-parse chain (activities_agent.py lines 172-271)
after preprocessing: parse as-is; on failure apply the trailing-comma fix,
the truncated-description fix, the trailing-comma fix again and the
bracket-balance repair and re-parse; on failure extract complete day objects,
clean each, re-assemble and parse; `none` is the definitive failure that
sends the caller to the fallback. -/
def parseChain (pr : ParsePrims) (c : String) : Option PyVal :=
  match pr.jsonParse c with
  | some v => some v
  | none =>
    let c1 := pr.fixTrailingCommas c
    let c2 := pr.fixDescriptions c1
    let c3 := pr.fixTrailingCommas c2
    let c4 := closeBrackets c3
    match pr.jsonParse c4 with
    | some v => some v
    | none =>
      let ms := pr.findDayObjects c4
      if ms.isEmpty then none
      else pr.jsonParse ("[" ++ String.intercalate "," (ms.map pr.fixTrailingCommas) ++ "]")

/-- Rendering of `current_date.strftime("%Y-%m-%d")` for a day ordinal; the
claims never inspect the format, only which ordinal is rendered. -/
def dateStr (d : ℤ) : String := toString d

/-- Dict lookup `kvs[k]` / `kvs.get(k)`. -/
def pyGet (kvs : List (String × PyVal)) (k : String) : Option PyVal :=
  kvs.lookup k

/-- A value accepted for a pydantic `str` field (pydantic v2 does not coerce
non-strings). -/
def pyStrVal : PyVal → Option String
  | .pyStr s => some s
  | _ => none

/-- Python `float(·)` on a JSON value: numbers pass through, booleans are 0/1,
strings go through the abstract numeric parse, anything else raises. -/
def pyFloatVal (pr : ParsePrims) : PyVal → Option ℚ
  | .pyInt n => some n
  | .pyNum q => some q
  | .pyBool b => some (if b then 1 else 0)
  | .pyStr s => pr.floatOfStr s
  | _ => none

/-- A value accepted for the pydantic `int` field `day`: an integer, or a
float of integral value.  (Pydantic's lax coercion of numeric strings is
modelled as failure; either way the agent produces a valid response, via the
conversion or via the fallback.) -/
def pyIntVal : PyVal → Option ℤ
  | .pyInt n => some n
  | .pyNum q => if q.den = 1 then some q.num else none
  | _ => none

/-- Conversion of one activity entry (activities_agent.py lines 278-287):
`name`, `time`, `description` are required strings, `icon` defaults to "📍",
`cost` is `float(act.get("cost", 0))`; any missing key or wrong type raises
(is `none`). -/
def convertActivity (pr : ParsePrims) : PyVal → Option Activity
  | .pyDict kvs => do
    let name ← pyStrVal (← pyGet kvs "name")
    let icon ←
      match pyGet kvs "icon" with
      | none => some "📍"
      | some iv => pyStrVal iv
    let time ← pyStrVal (← pyGet kvs "time")
    let cost ← pyFloatVal pr ((pyGet kvs "cost").getD (.pyInt 0))
    let desc ← pyStrVal (← pyGet kvs "description")
    some { name := name, icon := icon, time := time, cost := cost, description := desc }
  | _ => none

/-- Iterating `day_data["activities"]`: a list converts element-wise; empty
strings and empty dicts iterate to nothing; anything else raises on the first
element or is not iterable. -/
def convertActivities (pr : ParsePrims) : PyVal → Option (List Activity)
  | .pyList xs => xs.mapM (convertActivity pr)
  | .pyStr s => if s = "" then some [] else none
  | .pyDict kvs => if kvs.isEmpty then some [] else none
  | _ => none

/-- Conversion of one day object (activities_agent.py lines 277-298): the
`activities` value converts to a list of activities, `day` must be an
integer, the date comes from the running date counter, and `total_cost` is
the sum of the activity costs. -/
def convertDay (pr : ParsePrims) (dayDate : ℤ) : PyVal → Option DayPlan
  | .pyDict kvs => do
    let acts ← convertActivities pr (← pyGet kvs "activities")
    let dayN ← pyIntVal (← pyGet kvs "day")
    some { day := dayN, date := dateStr dayDate, activities := acts,
           total_cost := (acts.map Activity.cost).sum }
  | _ => none

/-- Conversion of a list of day objects with the running date counter. -/
def convertDayList (pr : ParsePrims) : List PyVal → ℤ → Option (List DayPlan)
  | [], _ => some []
  | v :: rest, d => do
    let dp ← convertDay pr d v
    let tail ← convertDayList pr rest (d + 1)
    some (dp :: tail)

/-- Conversion of the parsed `days_data` into the itinerary: iterating a
parsed list converts day by day; empty strings/dicts iterate to an empty
itinerary; everything else raises (and the caller falls back). -/
def convertDays (pr : ParsePrims) (startDate : ℤ) : PyVal → Option (List DayPlan)
  | .pyList ds => convertDayList pr ds startDate
  | .pyStr s => if s = "" then some [] else none
  | .pyDict kvs => if kvs.isEmpty then some [] else none
  | _ => none

/-- One fallback activity template (name, icon, time, share of the per-day
budget). -/
structure ActTemplate where
  name : String
  icon : String
  time : String
  cost_pct : ℚ

def luxuriousActs : List ActTemplate :=
  [⟨"Spa & Wellness", "💆", "10:00 AM", 0.3⟩,
   ⟨"Fine Dining Experience", "🍽️", "07:30 PM", 0.35⟩,
   ⟨"Private City Tour", "🚗", "02:00 PM", 0.25⟩]

def adventurousActs : List ActTemplate :=
  [⟨"Trekking Expedition", "🥾", "07:00 AM", 0.35⟩,
   ⟨"Water Sports", "🏄", "02:00 PM", 0.4⟩,
   ⟨"Camping Experience", "⛺", "06:00 PM", 0.15⟩]

def familyActs : List ActTemplate :=
  [⟨"Local Museum Visit", "🏛️", "10:00 AM", 0.15⟩,
   ⟨"Family Restaurant", "🍴", "01:00 PM", 0.25⟩,
   ⟨"Theme Park", "🎢", "03:00 PM", 0.35⟩]

def culturalActs : List ActTemplate :=
  [⟨"Heritage Walk", "🏛️", "09:00 AM", 0.2⟩,
   ⟨"Traditional Performance", "🎭", "06:00 PM", 0.3⟩,
   ⟨"Local Market Exploration", "🛍️", "04:00 PM", 0.15⟩]

def budgetActs : List ActTemplate :=
  [⟨"Free Walking Tour", "🚶", "09:00 AM", 0.05⟩,
   ⟨"Street Food Tour", "🍜", "12:00 PM", 0.15⟩,
   ⟨"Public Park Visit", "🏞️", "04:00 PM", 0⟩]

/-- `activity_templates.get(request.trip_type.lower(), activity_templates["family"])`
(activities_agent.py line 343). -/
def templatesFor (tripType : String) : List ActTemplate :=
  if toLowerStr tripType = "luxurious" then luxuriousActs
  else if toLowerStr tripType = "adventurous" then adventurousActs
  else if toLowerStr tripType = "family" then familyActs
  else if toLowerStr tripType = "cultural" then culturalActs
  else if toLowerStr tripType = "budget" then budgetActs
  else familyActs

/-- One day of `ActivitiesAgent._generate_fallback_itinerary`
(activities_agent.py lines 345-378): day `i + 1` is prefixed with the
zero-cost check-in when it is day 1, gets the first three templates priced as
`round(budget_per_day * cost_pct, 2)`, and reports `total_cost` as the sum of
its activity costs.  `budget_per_day` carries the `num_days > 0` division
guard of line 312. -/
def fallbackDay (req : ItineraryRequest) (numDays : ℤ) (i : ℕ) : DayPlan :=
  let budgetPerDay := if numDays > 0 then req.budget_allocation / numDays else req.budget_allocation
  let templates := templatesFor req.trip_type
  let day : ℤ := i + 1
  let checkin : List Activity :=
    if day = 1 then
      [{ name := "Hotel Check-in & Relaxation", icon := "🏨", time := "12:00 PM", cost := 0,
         description := "Arrive and settle into your accommodation in " ++ req.destination }]
    else []
  let acts := checkin ++ (templates.take 3).map (fun tpl =>
    { name := tpl.name, icon := tpl.icon, time := tpl.time,
      cost := round2 (budgetPerDay * tpl.cost_pct),
      description := "Experience " ++ toLowerStr tpl.name ++ " in " ++ req.destination })
  { day := day, date := dateStr (req.start_date + i), activities := acts,
    total_cost := (acts.map Activity.cost).sum }

/-- The whole fallback itinerary: one `fallbackDay` per `day in
range(1, num_days + 1)`. -/
def generateFallbackItinerary (req : ItineraryRequest) (numDays : ℤ) : List DayPlan :=
  (List.range numDays.toNat).map (fallbackDay req numDays)

/-- `ActivitiesAgent._generate_ai_itinerary` (activities_agent.py lines
67-304): retry loop, response checks, fence stripping, bracket slicing, the
repair-and-parse chain, and the conversion into day plans; every failure
path lands in the deterministic fallback. -/
def generateAIItinerary (pr : ParsePrims) (oracle : ℕ → GenOutcome)
    (req : ItineraryRequest) (numDays : ℤ) : List DayPlan :=
  match runRetryLoop oracle with
  | .fellBack => generateFallbackItinerary req numDays
  | .got resp =>
    if !resp.hasCandidates then generateFallbackItinerary req numDays
    else if resp.parts.isEmpty then generateFallbackItinerary req numDays
    else
      let content := (String.join resp.parts).trim
      if content = "" then generateFallbackItinerary req numDays
      else
        let sliced := (sliceBrackets (stripFences content)).trim
        match parseChain pr sliced with
        | none => generateFallbackItinerary req numDays
        | some pv =>
          match convertDays pr req.start_date pv with
          | some itin => itin
          | none => generateFallbackItinerary req numDays

/-- Groups of three characters, used by the thousands-separator rendering. -/
def chunk3 : List Char → List (List Char)
  | [] => []
  | a :: b :: c :: rest => [a, b, c] :: chunk3 rest
  | rest => [rest]

/-- Python `f"{n:,}"` on an integer: thousands separators. -/
def fmtComma (n : ℤ) : String :=
  let sign := if n < 0 then "-" else ""
  let ds := (toString n.natAbs).data
  let grouped := ((chunk3 ds.reverse).map List.reverse).reverse
  sign ++ String.intercalate "," (grouped.map String.mk)

/-- Python `f"{x:,.0f}"`: round to an integer and insert thousands
separators. -/
def fmtMoney (x : ℚ) : String := fmtComma (round x)

/-- `sub in s` on Python strings. -/
def strHasSub (s sub : String) : Bool := decide (sub.data <:+: s.data)

/-- The trip-type tip dictionary with its default
(activities_agent.py lines 412-426). -/
def tripTypeTip (t : String) : String :=
  if toLowerStr t = "luxurious" then
    "• Pre-book spa treatments and fine dining reservations - luxury venues fill up fast, especially weekends"
  else if toLowerStr t = "adventurous" then
    "• Check weather forecasts daily and have backup indoor activities ready for outdoor adventure plans"
  else if toLowerStr t = "family" then
    "• Plan activities with breaks every 2-3 hours - kids (and adults!) need downtime between attractions"
  else if toLowerStr t = "cultural" then
    "• Hire local guides at heritage sites - they reveal fascinating stories that plaques and apps miss"
  else if toLowerStr t = "beach" then
    "• Apply sunscreen 30 mins before beach time and reapply every 2 hours - skin protection is non-negotiable"
  else if toLowerStr t = "budget" then
    "• Eat where locals eat - street food and neighborhood eateries offer authentic taste at 1/3rd the tourist area prices"
  else if toLowerStr t = "romantic" then
    "• Book sunset experiences and rooftop dinners early - the best romantic spots have limited seating"
  else if toLowerStr t = "solo" then
    "• Join group tours or cooking classes to meet fellow travelers while exploring safely"
  else if toLowerStr t = "business" then
    "• Keep digital copies of all bookings and have offline maps downloaded - stay productive even without wifi"
  else
    "• Try local cuisine at neighborhood restaurants - authentic experiences are found off the tourist trail"

/-- The optional destination-specific fourth tip
(activities_agent.py lines 429-437). -/
def destinationTip (destLower : String) : List String :=
  if (["mumbai", "delhi", "bangalore", "kolkata", "chennai"] : List String).any
      (fun c => strHasSub destLower c) then
    ["• Use app-based cabs or metro instead of auto-rickshaws in big cities - transparent pricing saves haggling time"]
  else if (["goa", "kerala", "pondicherry", "andaman"] : List String).any
      (fun c => strHasSub destLower c) then
    ["• Rent a scooter or bike for the day (₹300-500) - coastal areas are best explored at your own pace"]
  else if (["rajasthan", "jaipur", "udaipur", "jodhpur", "jaisalmer"] : List String).any
      (fun c => strHasSub destLower c) then
    ["• Carry a water bottle and stay hydrated - Rajasthan's dry climate can be deceptive, especially while sightseeing"]
  else if (["manali", "shimla", "darjeeling", "mussoorie", "nainital"] : List String).any
      (fun c => strHasSub destLower c) then
    ["• Pack layers and a light jacket even in summer - hill stations get chilly in evenings and early mornings"]
  else []

/-- `ActivitiesAgent._get_recommendations` (activities_agent.py lines
382-439): a hardcoded tip builder from the itinerary length, budget
utilisation, trip type and destination. -/
def itineraryRecommendations (req : ItineraryRequest) (itin : List DayPlan)
    (totalCost : ℚ) : String :=
  let numDays : ℤ := itin.length
  let budgetPerDay := if numDays > 0 then req.budget_allocation / numDays else 0
  let costPerDay := if numDays > 0 then totalCost / numDays else 0
  let tip1 :=
    if numDays ≤ 2 then
      "• Start your day early (7-8 AM) to maximize sightseeing time in your short trip"
    else if numDays ≤ 4 then
      "• Begin sightseeing by 9 AM to avoid midday crowds and heat, leaving evenings for leisurely exploration"
    else
      "• Pace yourself with early starts (8-9 AM) and afternoon breaks - marathon trips need energy management"
  let util := if budgetPerDay > 0 then costPerDay / budgetPerDay * 100 else 0
  let tip2 :=
    if util < 60 then
      "• You're under-budget at ₹" ++ fmtMoney costPerDay ++
        "/day - consider adding premium experiences or better dining options"
    else if util > 90 then
      "• Budget is tight at ₹" ++ fmtMoney costPerDay ++
        "/day - look for combo tickets and free walking tours to save costs"
    else
      "• Book popular attractions online in advance to skip queues and often get 10-15% discounts"
  let tips := [tip1, tip2, tripTypeTip req.trip_type] ++ destinationTip (toLowerStr req.destination)
  String.intercalate "\n" tips

/-- `ActivitiesAgent.generate_itinerary` (activities_agent.py lines 43-65):
day count from the dates, the AI-or-fallback itinerary, the grand total as
the double sum of activity costs, and the hardcoded recommendations. -/
def generateItinerary (pr : ParsePrims) (oracle : ℕ → GenOutcome)
    (req : ItineraryRequest) : ItineraryResponse :=
  let days := req.end_date - req.start_date
  let itin := generateAIItinerary pr oracle req days
  let total := (itin.map (fun d => (d.activities.map Activity.cost).sum)).sum
  { itinerary := itin, total_activities_cost := total,
    recommendations := itineraryRecommendations req itin total }

/-- A day plan is well-formed when its reported total is the sum of its
activity costs (the field-presence half of well-formedness is enforced by
construction: `convertDay` fails on any missing or ill-typed field and the
caller then falls back). -/
def WellFormedDay (d : DayPlan) : Prop :=
  d.total_cost = (d.activities.map Activity.cost).sum

/-- Every day produced by the conversion of parsed AI data is well-formed. -/
theorem convertDay_wellFormed {pr : ParsePrims} {t : ℤ} {v : PyVal} {dp : DayPlan}
    (h : convertDay pr t v = some dp) : WellFormedDay dp := by
  cases v <;> simp only [convertDay] at h
  case pyDict kvs =>
    rcases h1 : pyGet kvs "activities" with _ | av <;> rw [h1] at h <;>
      simp only [Option.bind_eq_bind, Option.none_bind, Option.some_bind] at h
    · cases h
    rcases h2 : convertActivities pr av with _ | acts <;> rw [h2] at h <;>
      simp only [Option.none_bind, Option.some_bind] at h
    · cases h
    rcases h3 : pyGet kvs "day" with _ | dv <;> rw [h3] at h <;>
      simp only [Option.none_bind, Option.some_bind] at h
    · cases h
    rcases h4 : pyIntVal dv with _ | n <;> rw [h4] at h <;>
      simp only [Option.none_bind, Option.some_bind] at h
    · cases h
    cases h
    rfl
  all_goals cases h

/-- Every day in a successfully converted itinerary is well-formed. -/
theorem convertDayList_wellFormed {pr : ParsePrims} :
    ∀ {ds : List PyVal} {t : ℤ} {itin : List DayPlan},
      convertDayList pr ds t = some itin → ∀ d ∈ itin, WellFormedDay d := by
  intro ds
  induction ds with
  | nil =>
    intro t itin h d hd
    simp only [convertDayList] at h
    cases h
    simp at hd
  | cons v rest ih =>
    intro t itin h d hd
    simp only [convertDayList, Option.bind_eq_bind] at h
    rcases h1 : convertDay pr t v with _ | dp <;> rw [h1] at h <;>
      simp only [Option.none_bind, Option.some_bind] at h
    · cases h
    rcases h2 : convertDayList pr rest (t + 1) with _ | tail <;> rw [h2] at h <;>
      simp only [Option.none_bind, Option.some_bind] at h
    · cases h
    cases h
    rcases List.mem_cons.mp hd with hd | hd
    · subst hd
      exact convertDay_wellFormed h1
    · exact ih h2 d hd

/-- Every day in any successful `convertDays` result is well-formed. -/
theorem convertDays_wellFormed {pr : ParsePrims} {t : ℤ} {pv : PyVal}
    {itin : List DayPlan} (h : convertDays pr t pv = some itin) :
    ∀ d ∈ itin, WellFormedDay d := by
  cases pv <;> simp only [convertDays] at h
  case pyList ds => exact convertDayList_wellFormed h
  case pyStr s =>
    split at h
    · cases h
      simp
    · cases h
  case pyDict kvs =>
    split at h
    · cases h
      simp
    · cases h
  all_goals cases h

/-- Every day of the fallback itinerary is well-formed. -/
theorem fallback_wellFormed (req : ItineraryRequest) (n : ℤ) :
    ∀ d ∈ generateFallbackItinerary req n, WellFormedDay d := by
  intro d hd
  simp only [generateFallbackItinerary, List.mem_map] at hd
  obtain ⟨i, _, hi⟩ := hd
  subst hi
  rfl

/-- The AI path either returns a successfully converted itinerary or the
deterministic fallback. -/
theorem generateAIItinerary_cases (pr : ParsePrims) (oracle : ℕ → GenOutcome)
    (req : ItineraryRequest) (n : ℤ) :
    (∃ pv, convertDays pr req.start_date pv = some (generateAIItinerary pr oracle req n)) ∨
    generateAIItinerary pr oracle req n = generateFallbackItinerary req n := by
  unfold generateAIItinerary
  rcases runRetryLoop oracle with resp | _
  · dsimp only
    split
    · exact Or.inr rfl
    · split
      · exact Or.inr rfl
      · split
        · exact Or.inr rfl
        · split
          · exact Or.inr rfl
          · rename_i pv _
            split
            · rename_i itin hc
              exact Or.inl ⟨pv, hc⟩
            · exact Or.inr rfl
  · exact Or.inr rfl

/-- C1.  For every behaviour of the parse primitives and of the AI service,
`generate_itinerary` is a total function (no exception reaches the caller:
every failure path of the repair chain, including definitive parse failure,
lands in the deterministic fallback), and its result is either a successful
conversion of parsed data or the fallback itinerary; in both cases every
returned day is well-formed. -/
theorem generate_itinerary_wellformed_or_fallback (pr : ParsePrims)
    (oracle : ℕ → GenOutcome) (req : ItineraryRequest) :
    (∀ d ∈ (generateItinerary pr oracle req).itinerary, WellFormedDay d) ∧
    ((∃ pv, convertDays pr req.start_date pv =
        some (generateItinerary pr oracle req).itinerary) ∨
      (generateItinerary pr oracle req).itinerary =
        generateFallbackItinerary req (req.end_date - req.start_date)) := by
  have hit : (generateItinerary pr oracle req).itinerary =
      generateAIItinerary pr oracle req (req.end_date - req.start_date) := rfl
  constructor
  · intro d hd
    rw [hit] at hd
    rcases generateAIItinerary_cases pr oracle req (req.end_date - req.start_date) with
      ⟨pv, hpv⟩ | hfb
    · exact convertDays_wellFormed hpv d hd
    · rw [hfb] at hd
      exact fallback_wellFormed req _ d hd
  · rw [hit]
    exact generateAIItinerary_cases pr oracle req (req.end_date - req.start_date)

/-- C6.  The fallback itinerary starts (when at least one day is requested)
with the zero-cost check-in as day 1's first activity; every fallback day's
`total_cost` is the sum of its activity costs; and for every behaviour of
the AI service the response's `total_activities_cost` equals the sum of the
per-day totals. -/
theorem fallback_checkin_and_totals (req : ItineraryRequest) (n : ℤ) (hn : 1 ≤ n)
    (pr : ParsePrims) (oracle : ℕ → GenOutcome) (req2 : ItineraryRequest) :
    (∃ d rest, generateFallbackItinerary req n = d :: rest ∧
      (d.activities.head?.map (fun a => (a.cost, a.name))) =
        some (0, "Hotel Check-in & Relaxation")) ∧
    (∀ d ∈ generateFallbackItinerary req n, d.total_cost = (d.activities.map Activity.cost).sum) ∧
    ((generateItinerary pr oracle req2).total_activities_cost =
      ((generateItinerary pr oracle req2).itinerary.map DayPlan.total_cost).sum) := by
  refine ⟨?_, fallback_wellFormed req n, ?_⟩
  · obtain ⟨m, hm⟩ : ∃ m, n.toNat = m + 1 := ⟨n.toNat - 1, by omega⟩
    refine ⟨fallbackDay req n 0, (List.range m).map (fallbackDay req n ∘ Nat.succ), ?_, ?_⟩
    · rw [generateFallbackItinerary, hm, List.range_succ_eq_map, List.map_cons, List.map_map]
    · simp only [fallbackDay]
      norm_num
  · have hwf := (generate_itinerary_wellformed_or_fallback pr oracle req2).1
    have hit : (generateItinerary pr oracle req2).total_activities_cost =
        (((generateItinerary pr oracle req2).itinerary).map
          (fun d => (d.activities.map Activity.cost).sum)).sum := rfl
    rw [hit]
    congr 1
    exact List.map_congr_left (fun d hd => (hwf d hd).symm)

/-- Witness for C6 at a concrete three-day family request, a trivial parse
primitive set and an always-failing AI oracle. -/
theorem fallback_checkin_and_totals_witness :
    (∃ d rest,
      generateFallbackItinerary
          { destination := "goa", start_date := 0, end_date := 3, trip_type := "family",
            budget_allocation := 9000, interests := none } 3 = d :: rest ∧
      (d.activities.head?.map (fun a => (a.cost, a.name))) =
        some (0, "Hotel Check-in & Relaxation")) ∧
    (∀ d ∈ generateFallbackItinerary
        { destination := "goa", start_date := 0, end_date := 3, trip_type := "family",
          budget_allocation := 9000, interests := none } 3,
      d.total_cost = (d.activities.map Activity.cost).sum) ∧
    ((generateItinerary ⟨fun _ => none, id, id, fun _ => [], fun _ => none⟩ (fun _ => .raises)
        { destination := "goa", start_date := 0, end_date := 3, trip_type := "family",
          budget_allocation := 9000, interests := none }).total_activities_cost =
      ((generateItinerary ⟨fun _ => none, id, id, fun _ => [], fun _ => none⟩ (fun _ => .raises)
        { destination := "goa", start_date := 0, end_date := 3, trip_type := "family",
          budget_allocation := 9000, interests := none }).itinerary.map DayPlan.total_cost).sum) :=
  fallback_checkin_and_totals
    { destination := "goa", start_date := 0, end_date := 3, trip_type := "family",
      budget_allocation := 9000, interests := none } 3 (by decide)
    ⟨fun _ => none, id, id, fun _ => [], fun _ => none⟩ (fun _ => .raises)
    { destination := "goa", start_date := 0, end_date := 3, trip_type := "family",
      budget_allocation := 9000, interests := none }

/-! ## Hotel agent fallback prices (`src/backend/agents/hotel_agent.py`)

`HotelAgent._generate_fallback_hotels` (lines 478-678).  The price of the
`i`-th generated hotel depends only on the index, the per-night ceiling and
the two random draws of the loop body; the shuffled name pool, amenity and
rating draws do not influence prices and are not needed by the claim. -/

/-- The random draws consumed per hotel index: `uniformDraw i` models
`random.uniform(-0.08, 0.08)` (line 628) and `jitterDraw i` models
`random.randint(-50, 150)` (line 632). -/
structure HotelRand where
  uniformDraw : ℕ → ℚ
  jitterDraw : ℕ → ℤ

/-- The ranges the two generators draw from. -/
def ValidHotelRand (o : HotelRand) : Prop :=
  (∀ i, -(2 / 25) ≤ o.uniformDraw i ∧ o.uniformDraw i ≤ 2 / 25) ∧
  (∀ i, -50 ≤ o.jitterDraw i ∧ o.jitterDraw i ≤ 150)

/-- `hotels_to_generate = min(10, len(all_hotels))` (line 610); the pool
assembled at lines 540-559 always holds at least 28 templates, so ten hotels
are generated on every branch. -/
def hotelsToGenerate : ℕ := 10

/-- Python `round(x)` to an integer (`round(price, 0)` at line 664). -/
def round0 (x : ℚ) : ℚ := (round x : ℤ)

theorem round0_roundMult5 (x : ℚ) : round0 (roundMult 5 x) = roundMult 5 x := by
  unfold round0 roundMult
  rw [show ((round (x / 5) : ℤ) : ℚ) * 5 = ((round (x / 5) * 5 : ℤ) : ℚ) by push_cast; ring]
  rw [round_intCast]

theorem round0_roundMult10 (x : ℚ) : round0 (roundMult 10 x) = roundMult 10 x := by
  unfold round0 roundMult
  rw [show ((round (x / 10) : ℤ) : ℚ) * 10 = ((round (x / 10) * 10 : ℤ) : ℚ) by push_cast; ring]
  rw [round_intCast]

/-- The price of the `i`-th fallback hotel (hotel_agent.py lines 612-641 and
the `round(price, 0)` of line 664): an even spread between 25% and 100% of
the ceiling, ±8% variance, an additive jitter, clamping back into
`[min_price, max_price]`, then rounding to the nearest 10 above 3000 and to
the nearest 5 otherwise. -/
def fallbackPrice (o : HotelRand) (maxPrice : ℚ) (i : ℕ) : ℚ :=
  let minPrice := maxPrice * 0.25
  let pos : ℚ := (i : ℚ) / ((max (hotelsToGenerate - 1) 1 : ℕ) : ℚ)
  let target := minPrice + pos * (maxPrice - minPrice)
  let uniqueVariance := target * o.uniformDraw i
  let p1 := target + uniqueVariance
  let p2 := p1 + (o.jitterDraw i : ℚ)
  let p3 := max minPrice (min p2 maxPrice)
  round0 (if p3 > 3000 then roundMult 10 p3 else roundMult 5 p3)

/-- The ten generated prices, in generation order (the final sort by price
only permutes them). -/
def fallbackPrices (o : HotelRand) (maxPrice : ℚ) : List ℚ :=
  (List.range hotelsToGenerate).map (fallbackPrice o maxPrice)

/-- C5 counterexample.  The claim fails on both conjuncts: for the ceiling
`C = 8` a valid draw sequence yields the price 10 > 1.1 × 8 (clamping to the
ceiling then rounding 8 up to the nearest 5), and for `C = 1000` the same
draws make hotels 8 and 9 both clamp to the ceiling and round to identical
prices, so the sorted prices are not pairwise distinct. -/
theorem fallback_hotel_prices_counterexample :
    (¬ (∀ C : ℚ, 0 < C → ∀ o : HotelRand, ValidHotelRand o →
        (∀ p ∈ fallbackPrices o C, 1 / 5 * C ≤ p ∧ p ≤ 11 / 10 * C) ∧
        (fallbackPrices o C).Nodup)) ∧
    ValidHotelRand ⟨fun _ => 2 / 25, fun _ => 150⟩ ∧
    fallbackPrice ⟨fun _ => 2 / 25, fun _ => 150⟩ 1000 8 = 1000 ∧
    fallbackPrice ⟨fun _ => 2 / 25, fun _ => 150⟩ 1000 9 = 1000 ∧
    ¬ (fallbackPrices ⟨fun _ => 2 / 25, fun _ => 150⟩ 1000).Nodup := by
  have hvalid : ValidHotelRand ⟨fun _ => 2 / 25, fun _ => 150⟩ := by
    constructor <;> intro i <;> constructor <;> norm_num
  have h8 : fallbackPrice ⟨fun _ => 2 / 25, fun _ => 150⟩ 1000 8 = 1000 := by
    unfold fallbackPrice round0 roundMult hotelsToGenerate
    norm_num [round_eq]
  have h9 : fallbackPrice ⟨fun _ => 2 / 25, fun _ => 150⟩ 1000 9 = 1000 := by
    unfold fallbackPrice round0 roundMult hotelsToGenerate
    norm_num [round_eq]
  have hdup : ¬ (fallbackPrices ⟨fun _ => 2 / 25, fun _ => 150⟩ 1000).Nodup := by
    intro hnod
    have hlen : (fallbackPrices ⟨fun _ => 2 / 25, fun _ => 150⟩ 1000).length = 10 := by
      simp [fallbackPrices, hotelsToGenerate]
    have hinj := List.nodup_iff_injective_get.mp hnod
    have hgets : (⟨8, by rw [hlen]; norm_num⟩ :
          Fin (fallbackPrices ⟨fun _ => 2 / 25, fun _ => 150⟩ 1000).length) =
        ⟨9, by rw [hlen]; norm_num⟩ := by
      apply hinj
      simp only [fallbackPrices, List.get_eq_getElem, List.getElem_map, List.getElem_range]
      rw [h8, h9]
    simp only [Fin.mk.injEq] at hgets
    omega
  refine ⟨?_, hvalid, h8, h9, hdup⟩
  intro h
  have hmem : fallbackPrice ⟨fun _ => 2 / 25, fun _ => 150⟩ 8 9 ∈
      fallbackPrices ⟨fun _ => 2 / 25, fun _ => 150⟩ 8 :=
    List.mem_map.mpr ⟨9, by simp [hotelsToGenerate], rfl⟩
  have heval : fallbackPrice ⟨fun _ => 2 / 25, fun _ => 150⟩ 8 9 = 10 := by
    unfold fallbackPrice round0 roundMult hotelsToGenerate
    norm_num [round_eq]
  have hub := ((h 8 (by norm_num) _ hvalid).1 _ hmem).2
  rw [heval] at hub
  norm_num at hub

/-- C5 (amended).  For every ceiling `C ≥ 100` and every valid draw sequence,
each of the ten generated prices lies in `[0.2 × C, 1.1 × C]`; the
pairwise-distinctness clause of the original claim is dropped (clamping at
the bounds can yield duplicates, as the counterexample shows). -/
theorem fallback_hotel_price_bounds (C : ℚ) (hC : 100 ≤ C) (o : HotelRand)
    (ho : ValidHotelRand o) (i : ℕ) (hi : i < hotelsToGenerate) :
    1 / 5 * C ≤ fallbackPrice o C i ∧ fallbackPrice o C i ≤ 11 / 10 * C := by
  obtain ⟨hu, hj⟩ := ho
  obtain ⟨hu1, hu2⟩ := hu i
  obtain ⟨hj1, hj2⟩ := hj i
  have hiq : (i : ℚ) ≤ 9 := by
    have : i ≤ 9 := by
      simpa [hotelsToGenerate] using Nat.lt_succ_iff.mp (by simpa [hotelsToGenerate] using hi)
    exact_mod_cast this
  have hiq0 : (0 : ℚ) ≤ (i : ℚ) := by positivity
  have hden : ((max (hotelsToGenerate - 1) 1 : ℕ) : ℚ) = 9 := by
    norm_num [hotelsToGenerate]
  simp only [fallbackPrice]
  rw [hden]
  set pos : ℚ := (i : ℚ) / 9 with hposdef
  have hpos0 : 0 ≤ pos := by positivity
  have hpos1 : pos ≤ 1 := by
    rw [hposdef]
    rw [div_le_one (by norm_num)]
    linarith
  set m : ℚ := C * 0.25 with hmdef
  set target : ℚ := m + pos * (C - m) with htdef
  have hmC : m ≤ C := by rw [hmdef]; nlinarith
  have htlo : m ≤ target := by
    rw [htdef]
    nlinarith
  have hthi : target ≤ C := by
    rw [htdef]
    nlinarith
  set p3 : ℚ := max m (min (target + target * o.uniformDraw i + (o.jitterDraw i : ℚ)) C)
    with hp3def
  have hp3lo : m ≤ p3 := le_max_left _ _
  have hp3hi : p3 ≤ C := max_le hmC (min_le_right _ _)
  have hmval : m = C / 4 := by rw [hmdef]; ring
  by_cases hgt : p3 > 3000
  · rw [if_pos hgt, round0_roundMult10]
    have hcl := roundMult_close (show (0 : ℚ) < 10 by norm_num) p3
    rw [abs_le] at hcl
    constructor
    · linarith [hcl.1, hcl.2]
    · linarith [hcl.1, hcl.2]
  · rw [if_neg hgt, round0_roundMult5]
    have hcl := roundMult_close (show (0 : ℚ) < 5 by norm_num) p3
    rw [abs_le] at hcl
    constructor
    · linarith [hcl.1, hcl.2]
    · linarith [hcl.1, hcl.2]

/-- Witness for the amended C5 at ceiling 1000, zero draws, index 0. -/
theorem fallback_hotel_price_bounds_witness :
    1 / 5 * 1000 ≤ fallbackPrice ⟨fun _ => 0, fun _ => 0⟩ 1000 0 ∧
    fallbackPrice ⟨fun _ => 0, fun _ => 0⟩ 1000 0 ≤ 11 / 10 * 1000 :=
  fallback_hotel_price_bounds 1000 (by norm_num) ⟨fun _ => 0, fun _ => 0⟩
    (by constructor <;> intro i <;> constructor <;> norm_num) 0
    (by norm_num [hotelsToGenerate])

/-! ## Transport agent (`src/backend/agents/transport_agent.py`) and the
Amadeus city-code table (`src/backend/agents/amadeus_integration.py`) -/

/-- Python's `str.strip()` (ASCII whitespace suffices for the repo's city
names), structural so that it reduces in the kernel. -/
def trimStr (s : String) : String :=
  ⟨((s.data.dropWhile Char.isWhitespace).reverse.dropWhile Char.isWhitespace).reverse⟩

/-- Python's `str.upper()`. -/
def toUpperStr (s : String) : String := ⟨s.data.map Char.toUpper⟩

/-- Lexicographic comparison by code point, as Python compares strings;
structural so that it reduces in the kernel. -/
def charListLe : List Char → List Char → Bool
  | [], _ => true
  | _ :: _, [] => false
  | a :: as, b :: bs =>
    if a.toNat < b.toNat then true
    else if b.toNat < a.toNat then false
    else charListLe as bs

/-- `a <= b` on Python strings. -/
def strLe (a b : String) : Bool := charListLe a.data b.data

/-- `tuple(sorted([origin.lower(), destination.lower()]))`
(transport_agent.py lines 547 and 581). -/
def routeKey (origin dest : String) : String × String :=
  if strLe (toLowerStr origin) (toLowerStr dest) then (toLowerStr origin, toLowerStr dest)
  else (toLowerStr dest, toLowerStr origin)

/-- The `city_codes` dict of `AmadeusService.get_city_code`
(amadeus_integration.py lines 424-513), in source order. -/
def cityCodes : List (String × String) :=
  [("delhi", "DEL"),
  ("new delhi", "DEL"),
  ("mumbai", "BOM"),
  ("bangalore", "BLR"),
  ("bengaluru", "BLR"),
  ("chennai", "MAA"),
  ("kolkata", "CCU"),
  ("hyderabad", "HYD"),
  ("pune", "PNQ"),
  ("ahmedabad", "AMD"),
  ("jaipur", "JAI"),
  ("goa", "GOI"),
  ("kochi", "COK"),
  ("cochin", "COK"),
  ("lucknow", "LKO"),
  ("thiruvananthapuram", "TRV"),
  ("trivandrum", "TRV"),
  ("chandigarh", "IXC"),
  ("indore", "IDR"),
  ("bhubaneswar", "BBI"),
  ("raipur", "RPR"),
  ("ranchi", "IXR"),
  ("patna", "PAT"),
  ("varanasi", "VNS"),
  ("banaras", "VNS"),
  ("agra", "AGR"),
  ("srinagar", "SXR"),
  ("amritsar", "ATQ"),
  ("guwahati", "GAU"),
  ("mangalore", "IXE"),
  ("vijayawada", "VGA"),
  ("coimbatore", "CJB"),
  ("madurai", "IXM"),
  ("visakhapatnam", "VTZ"),
  ("vizag", "VTZ"),
  ("nagpur", "NAG"),
  ("udaipur", "UDR"),
  ("jodhpur", "JDH"),
  ("shimla", "SLV"),
  ("manali", "KUU"),
  ("leh", "IXL"),
  ("port blair", "IXZ"),
  ("imphal", "IMF"),
  ("aizawl", "AJL"),
  ("pondicherry", "PNY"),
  ("puducherry", "PNY"),
  ("dehradun", "DED"),
  ("mussoorie", "DED"),
  ("rishikesh", "DED"),
  ("haridwar", "DED"),
  ("nainital", "PGH"),
  ("darjeeling", "IXB"),
  ("gangtok", "IXB"),
  ("ooty", "CJB"),
  ("kodaikanal", "IXM"),
  ("munnar", "COK"),
  ("mcleodganj", "DHM"),
  ("dharamshala", "DHM"),
  ("andaman", "IXZ"),
  ("varkala", "TRV"),
  ("kovalam", "TRV"),
  ("alleppey", "COK"),
  ("alappuzha", "COK"),
  ("tirupati", "TIR"),
  ("shirdi", "SAG"),
  ("puri", "BBI"),
  ("dwarka", "AMD"),
  ("ajmer", "KQH"),
  ("mathura", "AGR"),
  ("vrindavan", "AGR"),
  ("surat", "STV"),
  ("rajkot", "RAJ"),
  ("vadodara", "BDQ"),
  ("baroda", "BDQ"),
  ("mysore", "MYQ"),
  ("mysuru", "MYQ"),
  ("aurangabad", "IXU"),
  ("siliguri", "IXB"),
  ("gwalior", "GWL"),
  ("bhopal", "BHO"),
  ("jabalpur", "JLR"),
  ("jammu", "IXJ"),
  ("dehri", "GAY"),
  ("bodh gaya", "GAY")]

/-- `AmadeusService.get_city_code` (amadeus_integration.py lines 413-516):
`city_codes.get(city_name.lower().strip())`. -/
def getCityCode (cityName : String) : Option String :=
  cityCodes.lookup (trimStr (toLowerStr cityName))

/-- The `city_distances` dict of `TransportAgent._estimate_distance`
(transport_agent.py lines 584-621) keyed by the sorted lower-cased pair,
with the 500 default of lines 623-627. -/
def distanceForKey (key : String × String) : ℚ :=
  if key = ("pondicherry", "vellore") then 100
  else if key = ("chennai", "vellore") then 140
  else if key = ("delhi", "mumbai") then 1400
  else if key = ("bangalore", "delhi") then 2150
  else if key = ("chennai", "delhi") then 2200
  else if key = ("delhi", "goa") then 1850
  else if key = ("delhi", "kolkata") then 1500
  else if key = ("delhi", "hyderabad") then 1570
  else if key = ("bangalore", "mumbai") then 980
  else if key = ("goa", "mumbai") then 450
  else if key = ("chennai", "mumbai") then 1330
  else if key = ("kolkata", "mumbai") then 2000
  else if key = ("mumbai", "pune") then 150
  else if key = ("bangalore", "goa") then 560
  else if key = ("bangalore", "chennai") then 350
  else if key = ("bangalore", "hyderabad") then 575
  else if key = ("bangalore", "kochi") then 540
  else if key = ("chennai", "goa") then 850
  else if key = ("chennai", "kolkata") then 1670
  else if key = ("chennai", "hyderabad") then 630
  else if key = ("goa", "pune") then 450
  else if key = ("bangalore", "pune") then 840
  else if key = ("goa", "hyderabad") then 650
  else if key = ("delhi", "jaipur") then 280
  else if key = ("ahmedabad", "mumbai") then 530
  else 500

/-- `TransportAgent._estimate_distance` as a function of the two city
names. -/
def estimateDistance (origin dest : String) : ℚ :=
  distanceForKey (routeKey origin dest)

/-- The `AIRLINE_NAMES` code-to-name table (transport_agent.py lines 26-51). -/
def airlineNames : List (String × String) :=
  [("6E", "IndiGo"),
   ("AI", "Air India"),
   ("UK", "Vistara"),
   ("SG", "SpiceJet"),
   ("G8", "Go First"),
   ("I5", "AirAsia India"),
   ("QP", "Akasa Air"),
   ("9I", "Alliance Air"),
   ("IX", "Air India Express"),
   ("S5", "Star Air"),
   ("OG", "Air India Regional"),
   ("LB", "Air Costa"),
   ("2T", "TruJet"),
   ("BA", "British Airways"),
   ("EK", "Emirates"),
   ("QR", "Qatar Airways"),
   ("SQ", "Singapore Airlines"),
   ("TG", "Thai Airways"),
   ("EY", "Etihad Airways"),
   ("LH", "Lufthansa"),
   ("AF", "Air France"),
   ("KL", "KLM"),
   ("TK", "Turkish Airlines")]

/-- Python `str.title()` on ASCII text: capitalise each letter that follows a
non-letter, lower-case the rest. -/
def titleAux : Bool → List Char → List Char
  | _, [] => []
  | prevAlpha, c :: rest =>
    (if c.isAlpha then (if prevAlpha then c.toLower else c.toUpper) else c) ::
      titleAux c.isAlpha rest

def titleStr (s : String) : String := ⟨titleAux false s.data⟩

/-- The ISO-duration display rewrite of transport_agent.py line 147 with the
empty-string default of line 149. -/
def fmtDuration (s : String) : String :=
  let d := (((s.replace "PT" "").replace "H" "h ").replace "M" "m").trim
  if d = "" then "2h 30m" else d

/-- Python `int(x)` on a float: truncation toward zero. -/
def pyIntOf (q : ℚ) : ℤ := if 0 ≤ q then ⌊q⌋ else ⌈q⌉

/-- The `f"₹{int(min(...)):,} - ₹{int(max(...)):,}"` price-range rendering
shared by the transport modes. -/
def priceRangeStr (opts : List TransportOption) : String :=
  let ps := opts.map TransportOption.price
  "₹" ++ fmtComma (pyIntOf (ps.min?.getD 0)) ++ " - ₹" ++
    fmtComma (pyIntOf (ps.max?.getD 0))

/-- Insertion step of the by-price sort. -/
def insertByPrice (x : TransportOption) : List TransportOption → List TransportOption
  | [] => [x]
  | y :: ys => if x.price ≤ y.price then x :: y :: ys else y :: insertByPrice x ys

/-- `options.sort(key=lambda x: x.price)`; the claims below never depend on
the order or stability of the sorted list. -/
def sortByPrice (l : List TransportOption) : List TransportOption :=
  l.foldr insertByPrice []

/-- One flight offer as the Amadeus adapter hands it to
`_get_flight_options`; `none` in a field models a missing key (`.get`
returning `None`), and string payloads may be `"N/A"`. -/
structure RawFlight where
  duration : Option String
  departure_time : Option String
  arrival_time : Option String
  airline : Option String
  flight_number : Option String
  price : Option ℚ
  cabin_class : Option String

/-- The display-only datetime parsing of the flight loop:
`datetime.fromisoformat(...)` followed by `strftime("%I:%M %p")`, abstract
because it only renders labels; `none` models the parse failure branch. -/
structure TransportPrims where
  isoTime : String → Option String

/-- The per-flight conversion of transport_agent.py lines 137-192: skip on
missing/`"N/A"` duration or departure time, skip when the price is missing
(`KeyError` caught at line 190), otherwise build the display option. -/
def flightOption (pr : TransportPrims) (f : RawFlight) : Option TransportOption :=
  match f.duration with
  | none => none
  | some dur =>
    if dur = "" ∨ dur = "N/A" then none
    else
      match f.departure_time with
      | none => none
      | some dep =>
        if dep = "" ∨ dep = "N/A" then none
        else
          match f.price with
          | none => none
          | some p =>
            let airlineCode := f.airline.getD "XX"
            let airlineName := (airlineNames.lookup airlineCode).getD airlineCode
            let flightNumber := f.flight_number.getD "N/A"
            let timeStr := (pr.isoTime dep).getD "Various times"
            let arrivalStr :=
              match f.arrival_time with
              | some arr =>
                if arr ≠ "N/A" then
                  match pr.isoTime arr with
                  | some t => " - " ++ t
                  | none => ""
                else ""
              | none => ""
            let cabin := titleStr (f.cabin_class.getD "ECONOMY")
            some { carrier := airlineName ++ " " ++ flightNumber,
                   time := timeStr ++ arrivalStr,
                   price := round2 p,
                   duration := fmtDuration dur,
                   class_type := some cabin }

/-- The external flight API: whether `amadeus_service.client` is configured,
and the offers returned by `search_flights` for a code pair and date. -/
structure AmadeusOracle where
  clientAvailable : Bool
  searchFlights : String → String → String → List RawFlight

/-- `TransportAgent._get_flight_options` (transport_agent.py lines 95-230):
flights are returned only when both cities resolve to IATA codes, the client
is configured, the API returns offers, and at least one offer parses; every
other path — unknown city, missing client, empty result, parse leftovers,
any exception — returns `None`, and no fallback flight data exists anywhere
in the function. -/
def getFlightOptions (pr : TransportPrims) (am : AmadeusOracle)
    (req : TransportSearchRequest) : Option TransportMode :=
  match getCityCode req.origin, getCityCode req.destination with
  | some oc, some dc =>
    if am.clientAvailable then
      let fl := am.searchFlights oc dc (dateStr req.travel_date)
      if fl.isEmpty then none
      else
        let options := fl.filterMap (flightOption pr)
        if options.isEmpty then none
        else
          let sorted := sortByPrice options
          some { mode := "Flight", icon := "✈️",
                 duration := (sorted.head?.map TransportOption.duration).getD "",
                 price_range := priceRangeStr sorted,
                 note := "Fastest - Real flight data from Amadeus",
                 options := sorted }
    else none
  | _, _ => none

/-- The `STATION_CODES` table of `src/backend/utils/irctc_api.py`
(lines 353-510), in source order. -/
def stationCodes : List (String × String) :=
  [("delhi", "NDLS"),
  ("new delhi", "NDLS"),
  ("old delhi", "DLI"),
  ("hazrat nizamuddin", "NZM"),
  ("nizamuddin", "NZM"),
  ("anand vihar", "ANVT"),
  ("sarai rohilla", "DEE"),
  ("mumbai", "CSTM"),
  ("bombay", "CSTM"),
  ("mumbai central", "BCT"),
  ("bandra", "BDTS"),
  ("lokmanya tilak", "LTT"),
  ("dadar", "DR"),
  ("thane", "TNA"),
  ("bangalore", "SBC"),
  ("bengaluru", "SBC"),
  ("bangalore city", "BNC"),
  ("yeshwantpur", "YPR"),
  ("mysore", "MYS"),
  ("mysuru", "MYS"),
  ("hubli", "UBL"),
  ("mangalore", "MAQ"),
  ("belgaum", "BGM"),
  ("chennai", "MAS"),
  ("madras", "MAS"),
  ("chennai egmore", "MS"),
  ("tambaram", "TBM"),
  ("coimbatore", "CBE"),
  ("madurai", "MDU"),
  ("trichy", "TPJ"),
  ("tiruchirappalli", "TPJ"),
  ("salem", "SA"),
  ("tirunelveli", "TEN"),
  ("vellore", "VLR"),
  ("katpadi", "KPD"),
  ("erode", "ED"),
  ("tirupati", "TPTY"),
  ("kanyakumari", "CAPE"),
  ("kolkata", "HWH"),
  ("calcutta", "HWH"),
  ("howrah", "HWH"),
  ("sealdah", "SDAH"),
  ("new jalpaiguri", "NJP"),
  ("jalpaiguri", "NJP"),
  ("patna", "PNBE"),
  ("guwahati", "GHY"),
  ("bhubaneswar", "BBS"),
  ("puri", "PURI"),
  ("hyderabad", "HYB"),
  ("secunderabad", "SC"),
  ("kacheguda", "KCG"),
  ("warangal", "WL"),
  ("pune", "PUNE"),
  ("nagpur", "NGP"),
  ("aurangabad", "AWB"),
  ("nashik", "NK"),
  ("solapur", "SUR"),
  ("ahmedabad", "ADI"),
  ("surat", "ST"),
  ("vadodara", "BRC"),
  ("baroda", "BRC"),
  ("rajkot", "RJT"),
  ("bhavnagar", "BVC"),
  ("jaipur", "JP"),
  ("jodhpur", "JU"),
  ("udaipur", "UDZ"),
  ("ajmer", "AII"),
  ("bikaner", "BKN"),
  ("kota", "KOTA"),
  ("goa", "MAO"),
  ("madgaon", "MAO"),
  ("vasco da gama", "VSG"),
  ("margao", "MAO"),
  ("lucknow", "LKO"),
  ("kanpur", "CNB"),
  ("varanasi", "BSB"),
  ("agra", "AGC"),
  ("allahabad", "PRYJ"),
  ("prayagraj", "PRYJ"),
  ("gorakhpur", "GKP"),
  ("meerut", "MTC"),
  ("amritsar", "ASR"),
  ("ludhiana", "LDH"),
  ("jalandhar", "JUC"),
  ("chandigarh", "CDG"),
  ("ambala", "UMB"),
  ("bhopal", "BPL"),
  ("indore", "INDB"),
  ("jabalpur", "JBP"),
  ("gwalior", "GWL"),
  ("ujjain", "UJN"),
  ("thiruvananthapuram", "TVC"),
  ("trivandrum", "TVC"),
  ("kochi", "ERS"),
  ("cochin", "ERS"),
  ("ernakulam", "ERS"),
  ("kozhikode", "CLT"),
  ("calicut", "CLT"),
  ("thrissur", "TCR"),
  ("kannur", "CAN"),
  ("vijayawada", "BZA"),
  ("visakhapatnam", "VSKP"),
  ("vizag", "VSKP"),
  ("guntur", "GNT"),
  ("rajahmundry", "RJY"),
  ("dehradun", "DDN"),
  ("haridwar", "HW"),
  ("rishikesh", "RKSH"),
  ("shimla", "SML"),
  ("pondicherry", "PDY"),
  ("puducherry", "PDY"),
  ("cuttack", "CTC"),
  ("berhampur", "BAM"),
  ("dibrugarh", "DBRG"),
  ("jorhat", "JTTN"),
  ("jammu", "JAT"),
  ("srinagar", "SINA")]

/-- `get_station_code` (irctc_api.py lines 513-524): table lookup by the
lower-cased, stripped city name, defaulting to the first four characters of
the upper-cased name. -/
def getStationCode (cityName : String) : String :=
  (stationCodes.lookup (trimStr (toLowerStr cityName))).getD ((toUpperStr cityName).take 4)

/-- One train as `get_trains` returns it: every key is always present
(`IRCTCClient._parse_train_response` and its fallbacks fill defaults), and
`price_range` maps class labels to estimated prices. -/
structure IRCTCTrain where
  train_number : String
  train_name : String
  departure_time : String
  arrival_time : String
  duration : String
  price_range : List (String × ℚ)

/-- Outcome of the IRCTC block of `_get_train_options`: the parsed train
list, or an exception reaching the handler at transport_agent.py line 311. -/
inductive IRCTCOutcome where
  | raises
  | trains (ts : List IRCTCTrain)

/-- The IRCTC collaborator, keyed by the two station codes and the date. -/
structure TrainOracle where
  irctc : String → String → ℤ → IRCTCOutcome

/-- Insertion step of the by-value sort of `sorted(price_range.items(),
key=lambda x: x[1])`. -/
def insertByVal (x : String × ℚ) : List (String × ℚ) → List (String × ℚ)
  | [] => [x]
  | y :: ys => if x.2 ≤ y.2 then x :: y :: ys else y :: insertByVal x ys

def sortByVal (l : List (String × ℚ)) : List (String × ℚ) :=
  l.foldr insertByVal []

/-- The options one train contributes (transport_agent.py lines 269-285):
nothing when its `price_range` is empty, otherwise one option per class for
the three cheapest classes. -/
def trainOptionsOf (t : IRCTCTrain) : List TransportOption :=
  if t.price_range.isEmpty then []
  else
    ((sortByVal t.price_range).take 3).map (fun cp =>
      { carrier := t.train_name ++ " (" ++ t.train_number ++ ")",
        time := "Dep: " ++ t.departure_time ++ " | Arr: " ++ t.arrival_time,
        price := cp.2, duration := t.duration, class_type := some cp.1 })

/-- One option object of the LLM-generated train/bus/cab JSON after the
per-option parse of the source (`opt["carrier"]`, `opt["time"]`, the price
string munging, `opt.get("class_type")`): a `none` field models the
`KeyError`/`ValueError` that makes the loop skip the option. -/
structure RawLLMOpt where
  carrier : Option String
  time : Option String
  price : Option ℚ
  class_type : Option String

/-- Build a transport option from a raw LLM option and the shared duration,
skipping it when a required field is missing. -/
def llmOptOf (dur : String) (r : RawLLMOpt) : Option TransportOption :=
  match r.carrier, r.time, r.price with
  | some c, some t, some p => some ⟨c, t, p, dur, r.class_type⟩
  | _, _, _ => none

/-- As `llmOptOf`, but `time` defaults to "Available anytime" as in the cab
loop (`opt.get("time", "Available anytime")`, transport_agent.py line 515). -/
def cabOptOf (dur : String) (r : RawLLMOpt) : Option TransportOption :=
  match r.carrier, r.price with
  | some c, some p => some ⟨c, r.time.getD "Available anytime", p, dur, r.class_type⟩
  | _, _ => none

/-- Outcome of one `generate_content` call of the LLM train fallback: an
exception (the API raising, a text-less response, or `json.loads` failing —
all land in the handler at transport_agent.py line 380), or parsed JSON with
an optional duration and the option list. -/
inductive TrainGen where
  | raises
  | parsed (duration : Option String) (opts : List RawLLMOpt)

/-- `TransportAgent._get_fallback_train_options` (transport_agent.py lines
315-382), fuel-indexed because its `except` handler at lines 380-382 calls
the function itself again with the unchanged request: `oracle k` is the
outcome of the `k`-th `generate_content` call, the result is
`some (some mode)` / `some none` for the source's `return` statements, and
`none` means the recursion is still running after `fuel` calls. -/
def getFallbackTrainOptions (oracle : ℕ → TrainGen) (req : TransportSearchRequest)
    (k : ℕ) : ℕ → Option (Option TransportMode)
  | 0 => none
  | fuel + 1 =>
    match oracle k with
    | .raises => getFallbackTrainOptions oracle req (k + 1) fuel
    | .parsed dur rawOpts =>
      let d := dur.getD "12h 00m"
      let options := rawOpts.filterMap (llmOptOf d)
      if options.isEmpty then some none
      else
        some (some { mode := "Train", icon := "🚆", duration := d,
                     price_range := priceRangeStr options, note := "Most Comfortable",
                     options := options })

/-- `TransportAgent._get_train_options` (transport_agent.py lines 232-313):
real IRCTC data when available, otherwise the LLM fallback (which may not
terminate; the fuel threads through). -/
def getTrainOptions (oracle : ℕ → TrainGen) (ir : TrainOracle)
    (req : TransportSearchRequest) (fuel : ℕ) : Option (Option TransportMode) :=
  let fromCode := getStationCode req.origin
  let toCode := getStationCode req.destination
  if fromCode = "" ∨ toCode = "" then getFallbackTrainOptions oracle req 0 fuel
  else
    match ir.irctc fromCode toCode req.travel_date with
    | .raises => getFallbackTrainOptions oracle req 0 fuel
    | .trains ts =>
      if ts.isEmpty then getFallbackTrainOptions oracle req 0 fuel
      else
        let options := ((ts.take 5).map trainOptionsOf).flatten
        if options.isEmpty then getFallbackTrainOptions oracle req 0 fuel
        else
          let sorted := sortByPrice options
          some (some { mode := "Train", icon := "🚆",
                       duration := (ts.head?.map IRCTCTrain.duration).getD "12h 00m",
                       price_range := priceRangeStr sorted,
                       note := "Most Comfortable | Real IRCTC Data",
                       options := sorted })

/-- Outcome of the bus LLM call (transport_agent.py lines 384-466): a
response without usable text (the explicit `hasattr`/empty check at line
406), an exception, or parsed JSON. -/
inductive BusGen where
  | noText
  | raises
  | parsed (duration : Option String) (opts : List RawLLMOpt)

/-- The static bus fallback (transport_agent.py lines 656-670). -/
def fallbackBusMode : TransportMode :=
  { mode := "Bus", icon := "🚌", duration := "15h 30m", price_range := "₹900 - ₹1,500",
    note := "Most Affordable",
    options :=
      [⟨"Volvo AC", "10:00 PM", 1500, "15h 30m", some "AC Sleeper"⟩,
       ⟨"VRL Travels", "09:30 PM", 1200, "16h 00m", some "Semi-Sleeper"⟩,
       ⟨"SRS Travels", "11:00 PM", 900, "15h 45m", some "Seater"⟩] }

/-- The static cab fallback (transport_agent.py lines 672-686). -/
def fallbackCabMode : TransportMode :=
  { mode := "Cab", icon := "🚖", duration := "8h 45m", price_range := "₹7,000 - ₹8,500",
    note := "Most Flexible",
    options :=
      [⟨"Ola Prime", "Available anytime", 8500, "8h 45m", some "Sedan"⟩,
       ⟨"Uber XL", "Available anytime", 7800, "8h 45m", some "SUV"⟩,
       ⟨"Local Taxi", "Available anytime", 7000, "9h 00m", some "Sedan"⟩] }

/-- `TransportAgent._get_bus_options` (transport_agent.py lines 384-466). -/
def getBusOptions (g : BusGen) : Option TransportMode :=
  match g with
  | .noText => some fallbackBusMode
  | .raises => some fallbackBusMode
  | .parsed dur rawOpts =>
    let d := dur.getD "15h 00m"
    let options := rawOpts.filterMap (llmOptOf d)
    if options.isEmpty then none
    else
      some { mode := "Bus", icon := "🚌", duration := d,
             price_range := priceRangeStr options, note := "Most Affordable",
             options := options }

/-- Outcome of the cab LLM call (transport_agent.py lines 468-538). -/
inductive CabGen where
  | raises
  | parsed (duration : Option String) (opts : List RawLLMOpt)

/-- `TransportAgent._get_cab_options` (transport_agent.py lines 468-538). -/
def getCabOptions (g : CabGen) : Option TransportMode :=
  match g with
  | .raises => some fallbackCabMode
  | .parsed dur rawOpts =>
    let d := dur.getD "8h 00m"
    let options := rawOpts.filterMap (cabOptOf d)
    if options.isEmpty then none
    else
      some { mode := "Cab", icon := "🚖", duration := d,
             price_range := priceRangeStr options, note := "Most Flexible",
             options := options }

/-- `TransportAgent.search_transport` (transport_agent.py lines 69-93): the
four mode lookups run in a worker pool and every non-`None`, non-failing
result is appended; a train fallback still running at the 10-second timeout
(`Option.join` of `none`) is dropped like a failure.  The gathering order is
nondeterministic in the source (`as_completed`); the fixed order used here
is irrelevant to the claims, which are membership statements. -/
def searchTransport (pr : TransportPrims) (am : AmadeusOracle) (ir : TrainOracle)
    (tg : ℕ → TrainGen) (bg : BusGen) (cg : CabGen) (fuel : ℕ)
    (req : TransportSearchRequest) : TransportSearchResponse :=
  { transport_modes :=
      [getFlightOptions pr am req, (getTrainOptions tg ir req fuel).join,
       getBusOptions bg, getCabOptions cg].filterMap id }

/-- The only table keys whose distance is below 150 are the two vellore
routes (100 and 140); everything else, the 500 default included, is at least
150. -/
theorem distanceForKey_lt (key : String × String) (h : distanceForKey key < 150) :
    key = ("pondicherry", "vellore") ∨ key = ("chennai", "vellore") := by
  unfold distanceForKey at h
  by_cases h1 : key = ("pondicherry", "vellore")
  · exact Or.inl h1
  rw [if_neg h1] at h
  by_cases h2 : key = ("chennai", "vellore")
  · exact Or.inr h2
  rw [if_neg h2] at h
  by_cases h3 : key = ("delhi", "mumbai")
  · rw [if_pos h3] at h; norm_num at h
  rw [if_neg h3] at h
  by_cases h4 : key = ("bangalore", "delhi")
  · rw [if_pos h4] at h; norm_num at h
  rw [if_neg h4] at h
  by_cases h5 : key = ("chennai", "delhi")
  · rw [if_pos h5] at h; norm_num at h
  rw [if_neg h5] at h
  by_cases h6 : key = ("delhi", "goa")
  · rw [if_pos h6] at h; norm_num at h
  rw [if_neg h6] at h
  by_cases h7 : key = ("delhi", "kolkata")
  · rw [if_pos h7] at h; norm_num at h
  rw [if_neg h7] at h
  by_cases h8 : key = ("delhi", "hyderabad")
  · rw [if_pos h8] at h; norm_num at h
  rw [if_neg h8] at h
  by_cases h9 : key = ("bangalore", "mumbai")
  · rw [if_pos h9] at h; norm_num at h
  rw [if_neg h9] at h
  by_cases h10 : key = ("goa", "mumbai")
  · rw [if_pos h10] at h; norm_num at h
  rw [if_neg h10] at h
  by_cases h11 : key = ("chennai", "mumbai")
  · rw [if_pos h11] at h; norm_num at h
  rw [if_neg h11] at h
  by_cases h12 : key = ("kolkata", "mumbai")
  · rw [if_pos h12] at h; norm_num at h
  rw [if_neg h12] at h
  by_cases h13 : key = ("mumbai", "pune")
  · rw [if_pos h13] at h; norm_num at h
  rw [if_neg h13] at h
  by_cases h14 : key = ("bangalore", "goa")
  · rw [if_pos h14] at h; norm_num at h
  rw [if_neg h14] at h
  by_cases h15 : key = ("bangalore", "chennai")
  · rw [if_pos h15] at h; norm_num at h
  rw [if_neg h15] at h
  by_cases h16 : key = ("bangalore", "hyderabad")
  · rw [if_pos h16] at h; norm_num at h
  rw [if_neg h16] at h
  by_cases h17 : key = ("bangalore", "kochi")
  · rw [if_pos h17] at h; norm_num at h
  rw [if_neg h17] at h
  by_cases h18 : key = ("chennai", "goa")
  · rw [if_pos h18] at h; norm_num at h
  rw [if_neg h18] at h
  by_cases h19 : key = ("chennai", "kolkata")
  · rw [if_pos h19] at h; norm_num at h
  rw [if_neg h19] at h
  by_cases h20 : key = ("chennai", "hyderabad")
  · rw [if_pos h20] at h; norm_num at h
  rw [if_neg h20] at h
  by_cases h21 : key = ("goa", "pune")
  · rw [if_pos h21] at h; norm_num at h
  rw [if_neg h21] at h
  by_cases h22 : key = ("bangalore", "pune")
  · rw [if_pos h22] at h; norm_num at h
  rw [if_neg h22] at h
  by_cases h23 : key = ("goa", "hyderabad")
  · rw [if_pos h23] at h; norm_num at h
  rw [if_neg h23] at h
  by_cases h24 : key = ("delhi", "jaipur")
  · rw [if_pos h24] at h; norm_num at h
  rw [if_neg h24] at h
  by_cases h25 : key = ("ahmedabad", "mumbai")
  · rw [if_pos h25] at h; norm_num at h
  rw [if_neg h25] at h
  norm_num at h

/-- The only routes whose estimated distance is below 150 involve vellore. -/
theorem routeKey_of_short_distance (o d : String) (h : estimateDistance o d < 150) :
    routeKey o d = ("pondicherry", "vellore") ∨ routeKey o d = ("chennai", "vellore") :=
  distanceForKey_lt (routeKey o d) h

/-- When the sorted route key's second component is "vellore", one of the two
lower-cased city names is "vellore". -/
theorem routeKey_snd_vellore {o d a : String} (h : routeKey o d = (a, "vellore")) :
    toLowerStr o = "vellore" ∨ toLowerStr d = "vellore" := by
  unfold routeKey at h
  split_ifs at h
  · right
    have := congrArg Prod.snd h
    simpa using this
  · left
    have := congrArg Prod.snd h
    simpa using this

/-- "vellore" is absent from the Amadeus city-code table. -/
theorem getCityCode_vellore {c : String} (h : toLowerStr c = "vellore") :
    getCityCode c = none := by
  unfold getCityCode
  rw [h]
  decide

/-- Without an IATA code for either endpoint, no flight mode is produced. -/
theorem getFlightOptions_none_of_missing_code (pr : TransportPrims) (am : AmadeusOracle)
    (req : TransportSearchRequest)
    (h : getCityCode req.origin = none ∨ getCityCode req.destination = none) :
    getFlightOptions pr am req = none := by
  unfold getFlightOptions
  rcases h with h | h
  · rcases hd : getCityCode req.destination with _ | dc <;> rw [h] <;> rfl
  · rcases ho : getCityCode req.origin with _ | oc <;> rw [h] <;> rfl

/-- The LLM train fallback only ever labels its result "Train". -/
theorem getFallbackTrainOptions_mode (oracle : ℕ → TrainGen) (req : TransportSearchRequest) :
    ∀ (fuel k : ℕ) (m : TransportMode),
      getFallbackTrainOptions oracle req k fuel = some (some m) → m.mode = "Train" := by
  intro fuel
  induction fuel with
  | zero =>
    intro k m h
    simp [getFallbackTrainOptions] at h
  | succ n ih =>
    intro k m h
    cases hg : oracle k with
    | raises =>
      rw [getFallbackTrainOptions, hg] at h
      exact ih (k + 1) m h
    | parsed dur opts =>
      rw [getFallbackTrainOptions] at h
      rw [hg] at h
      simp only at h
      split_ifs at h
      all_goals try cases h
      all_goals rfl

/-- The train path only ever labels its result "Train". -/
theorem getTrainOptions_mode (oracle : ℕ → TrainGen) (ir : TrainOracle)
    (req : TransportSearchRequest) (fuel : ℕ) (m : TransportMode)
    (h : getTrainOptions oracle ir req fuel = some (some m)) : m.mode = "Train" := by
  simp only [getTrainOptions] at h
  split_ifs at h
  · exact getFallbackTrainOptions_mode oracle req fuel 0 m h
  rcases hg : ir.irctc (getStationCode req.origin) (getStationCode req.destination)
      req.travel_date with _ | ts <;> rw [hg] at h
  · exact getFallbackTrainOptions_mode oracle req fuel 0 m h
  simp only at h
  split_ifs at h
  all_goals try exact getFallbackTrainOptions_mode oracle req fuel 0 m h
  all_goals try cases h
  all_goals rfl

/-- The bus path only ever labels its result "Bus". -/
theorem getBusOptions_mode (g : BusGen) (m : TransportMode)
    (h : getBusOptions g = some m) : m.mode = "Bus" := by
  cases g with
  | noText => cases h; rfl
  | raises => cases h; rfl
  | parsed dur opts =>
    simp only [getBusOptions] at h
    split_ifs at h
    all_goals try cases h
    all_goals rfl

/-- The cab path only ever labels its result "Cab". -/
theorem getCabOptions_mode (g : CabGen) (m : TransportMode)
    (h : getCabOptions g = some m) : m.mode = "Cab" := by
  cases g with
  | raises => cases h; rfl
  | parsed dur opts =>
    simp only [getCabOptions] at h
    split_ifs at h
    all_goals try cases h
    all_goals rfl

/-- Every member of the assembled result set comes from one of the four mode
lookups. -/
theorem searchTransport_modes_cases (pr : TransportPrims) (am : AmadeusOracle)
    (ir : TrainOracle) (tg : ℕ → TrainGen) (bg : BusGen) (cg : CabGen) (fuel : ℕ)
    (req : TransportSearchRequest) (m : TransportMode)
    (hm : m ∈ (searchTransport pr am ir tg bg cg fuel req).transport_modes) :
    getFlightOptions pr am req = some m ∨
    (getTrainOptions tg ir req fuel).join = some m ∨
    getBusOptions bg = some m ∨ getCabOptions cg = some m := by
  simp only [searchTransport, List.mem_filterMap, id_eq] at hm
  obtain ⟨a, ha, rfl⟩ := hm
  simp only [List.mem_cons, List.not_mem_nil, or_false] at ha
  rcases ha with h | h | h | h
  · exact Or.inl h.symm
  · exact Or.inr (Or.inl h.symm)
  · exact Or.inr (Or.inr (Or.inl h.symm))
  · exact Or.inr (Or.inr (Or.inr h.symm))

/-- C7.  For every behaviour of the external collaborators, a transport
search whose estimated route distance is below the 150-unit flight minimum
produces no flight mode: the flight lookup returns nothing (every sub-150
route involves a city without an IATA code, and the code contains no flight
fallback data at all), and hence no member of the result set is labelled
"Flight". -/
theorem short_route_omits_flight (pr : TransportPrims) (am : AmadeusOracle)
    (ir : TrainOracle) (tg : ℕ → TrainGen) (bg : BusGen) (cg : CabGen) (fuel : ℕ)
    (req : TransportSearchRequest)
    (hshort : estimateDistance req.origin req.destination < 150) :
    getFlightOptions pr am req = none ∧
    ∀ m ∈ (searchTransport pr am ir tg bg cg fuel req).transport_modes,
      m.mode ≠ "Flight" := by
  have hflight : getFlightOptions pr am req = none := by
    apply getFlightOptions_none_of_missing_code
    rcases routeKey_of_short_distance req.origin req.destination hshort with hk | hk <;>
      rcases routeKey_snd_vellore hk with hv | hv
    · exact Or.inl (getCityCode_vellore hv)
    · exact Or.inr (getCityCode_vellore hv)
    · exact Or.inl (getCityCode_vellore hv)
    · exact Or.inr (getCityCode_vellore hv)
  refine ⟨hflight, ?_⟩
  intro m hm
  rcases searchTransport_modes_cases pr am ir tg bg cg fuel req m hm with h | h | h | h
  · rw [hflight] at h
    cases h
  · rw [Option.join_eq_some] at h
    rw [getTrainOptions_mode tg ir req fuel m h]
    decide
  · rw [getBusOptions_mode bg m h]
    decide
  · rw [getCabOptions_mode cg m h]
    decide

/-- Witness for C7: the 140-unit vellore–chennai route, concrete collaborator
behaviours, and the conclusion that the flight mode is absent. -/
theorem short_route_omits_flight_witness :
    getFlightOptions ⟨fun _ => none⟩ ⟨true, fun _ _ _ => []⟩
        { origin := "Vellore", destination := "Chennai", travel_date := 0, adults := 2,
          children := 0, budget_allocation := 15000 } = none ∧
    ∀ m ∈ (searchTransport ⟨fun _ => none⟩ ⟨true, fun _ _ _ => []⟩
        ⟨fun _ _ _ => .raises⟩ (fun _ => .raises) .raises .raises 5
        { origin := "Vellore", destination := "Chennai", travel_date := 0, adults := 2,
          children := 0, budget_allocation := 15000 }).transport_modes,
      m.mode ≠ "Flight" :=
  short_route_omits_flight ⟨fun _ => none⟩ ⟨true, fun _ _ _ => []⟩
    ⟨fun _ _ _ => .raises⟩ (fun _ => .raises) .raises .raises 5
    { origin := "Vellore", destination := "Chennai", travel_date := 0, adults := 2,
      children := 0, budget_allocation := 15000 }
    (by decide)

/-- C10.  The train fallback generator does not terminate under persistent
failure of the content-generation call: when every `generate_content` call
raises, the `except` handler at transport_agent.py lines 380-382 re-invokes
`_get_fallback_train_options` with the unchanged request, so no finite
number of calls produces a result — contradicting the claimed termination.
(The siblings `_get_bus_options`/`_get_cab_options` fall back to static
data on the same event, which is evidently the intended behaviour here
too.) -/
theorem fallback_train_diverges_on_persistent_failure
    (req : TransportSearchRequest) (fuel k : ℕ) :
    getFallbackTrainOptions (fun _ => TrainGen.raises) req k fuel = none := by
  induction fuel generalizing k with
  | zero => rfl
  | succ n ih =>
    rw [getFallbackTrainOptions]
    exact ih (k + 1)

end TravelAgent
